import Mathlib

/-
  Verification of the HIGH_LEVEL_LANG pseudo-Java translator.

  Strings are modelled as lists of characters (`Str`).  Python string
  operations (strip, split, replace, substring membership, slicing) are
  embedded as executable functions on `Str`, and the regular expressions
  used by the sources are embedded through a small backtracking matcher
  (`reMatch`) over an explicit element list; each encoded pattern carries
  the original regular expression in a comment.
-/

abbrev Str := List Char

def sl (s : String) : Str := s.data

/-- Python `str.isspace` members relevant to `strip`/`split`: space, tab,
newline, carriage return, vertical tab, form feed. -/
def pyIsSpace (c : Char) : Bool :=
  c = ' ' || c = '\t' || c = '\n' || c = '\r' || c = '\x0b' || c = '\x0c'

/-- Python `str.strip()` (no arguments): drop whitespace on both ends. -/
def pyStrip (s : Str) : Str :=
  ((s.dropWhile pyIsSpace).reverse.dropWhile pyIsSpace).reverse

/-- Python `str.lstrip()`. -/
def pyLStrip (s : Str) : Str := s.dropWhile pyIsSpace

/-- Python `str.rstrip(':')`: drop every trailing colon. -/
def rstripColon (s : Str) : Str := (s.reverse.dropWhile (fun c => c = ':')).reverse

/-- Python `str.lower()` (ASCII inputs). -/
def pyLower (s : Str) : Str := s.map Char.toLower

/-- Python `str.upper()` (ASCII inputs). -/
def pyUpper (s : Str) : Str := s.map Char.toUpper

/-- Python `str.capitalize()`: first character upper-cased, all remaining
characters lower-cased. -/
def pyCapitalize (s : Str) : Str :=
  match s with
  | [] => []
  | c :: rest => c.toUpper :: pyLower rest

/-- Python `str.isdigit()` (ASCII): non-empty and all decimal digits. -/
def pyIsDigit (s : Str) : Bool :=
  !s.isEmpty && s.all (fun c => '0' ≤ c && c ≤ '9')

/-- `dropPfx pat s` removes `pat` from the front of `s` when it is a prefix. -/
def dropPfx : Str → Str → Option Str
  | [], s => some s
  | _ :: _, [] => none
  | p :: ps, c :: cs => if p = c then dropPfx ps cs else none

/-- Python `s.startswith(pat)`. -/
def startsWithS (s pat : Str) : Bool := (dropPfx pat s).isSome

/-- Python `s.endswith(pat)`. -/
def endsWithS (s pat : Str) : Bool := (dropPfx pat.reverse s.reverse).isSome

/-- Python `pat in s` (substring membership). -/
def containsSub : Str → Str → Bool
  | [], pat => pat.isEmpty
  | c :: rest, pat => (dropPfx pat (c :: rest)).isSome || containsSub rest pat

/-- Split at the first occurrence of `sep`; `none` when `sep` does not occur. -/
def splitOnceSub : Str → Str → Option (Str × Str)
  | [], _ => none
  | c :: rest, sep =>
      match dropPfx sep (c :: rest) with
      | some after => some ([], after)
      | none =>
          match splitOnceSub rest sep with
          | some (pre, post) => some (c :: pre, post)
          | none => none

theorem dropPfx_length {pat s t : Str} (h : dropPfx pat s = some t) :
    t.length + pat.length = s.length := by
  induction pat generalizing s with
  | nil => simp [dropPfx] at h; simp [h]
  | cons p ps ih =>
      cases s with
      | nil => simp [dropPfx] at h
      | cons c cs =>
          simp [dropPfx] at h
          rcases h with ⟨-, h2⟩
          have := ih h2
          simp [List.length_cons]
          omega

theorem splitOnceSub_length {s sep pre post : Str}
    (h : splitOnceSub s sep = some (pre, post)) :
    pre.length + sep.length + post.length = s.length := by
  induction s generalizing pre post with
  | nil => simp [splitOnceSub] at h
  | cons c rest ih =>
      simp only [splitOnceSub] at h
      cases hd : dropPfx sep (c :: rest) with
      | some after =>
          rw [hd] at h
          cases h
          have := dropPfx_length hd
          simp [List.length_cons] at this ⊢
          omega
      | none =>
          rw [hd] at h
          cases hs : splitOnceSub rest sep with
          | some pp =>
              obtain ⟨p1, p2⟩ := pp
              rw [hs] at h
              cases h
              have := ih hs
              simp [List.length_cons]
              omega
          | none => rw [hs] at h; cases h

/-- Python `s.split(sep)` (full split, `sep` non-empty), with a fuel
argument for structural recursion; `fuel = s.length` always suffices since
every found separator consumes at least one character. -/
def pySplitNE (fuel : Nat) (s : Str) (sep : Str) : List Str :=
  match fuel with
  | 0 => [s]
  | f + 1 =>
      match splitOnceSub s sep with
      | some (pre, post) => pre :: pySplitNE f post sep
      | none => [s]

def pySplit (s sep : Str) : List Str :=
  match sep with
  | [] => [s]
  | _ :: _ => pySplitNE s.length s sep

/-- Python `s.split(sep, 1)` returned as a pair; `none` when `sep` absent. -/
def pySplitOnce (s sep : Str) : Option (Str × Str) := splitOnceSub s sep

/-- Python `sep.join(xs)`. -/
def joinSep (sep : Str) : List Str → Str
  | [] => []
  | [x] => x
  | x :: y :: xs => x ++ sep ++ joinSep sep (y :: xs)

/-- Python `s.split()` (splitting on whitespace runs, discarding empties),
with an accumulator holding the current word reversed. -/
def pySplitWsGo : Str → Str → List Str
  | [], acc => if acc.isEmpty then [] else [acc.reverse]
  | c :: rest, acc =>
      if pyIsSpace c then
        if acc.isEmpty then pySplitWsGo rest [] else acc.reverse :: pySplitWsGo rest []
      else pySplitWsGo rest (c :: acc)

def pySplitWs (s : Str) : List Str := pySplitWsGo s []

/-- Python `s.replace(pat, r)` (left-to-right, non-overlapping), for a
non-empty pattern; the fuel argument (`s.length` always suffices) makes the
recursion structural. -/
def raGo (fuel : Nat) (pat r : Str) : Str → Str
  | [] => []
  | c :: s =>
      match fuel with
      | 0 => c :: s
      | f + 1 =>
          match dropPfx pat (c :: s) with
          | some rest => r ++ raGo f pat r rest
          | none => c :: raGo f pat r s

def replaceAll (s pat r : Str) : Str :=
  match pat with
  | [] => s
  | _ :: _ => raGo s.length pat r s

/-- Truthiness of a Python `Optional[str]`: `None` and `""` are falsy. -/
def optTruthy : Option Str → Bool
  | none => false
  | some s => !s.isEmpty

/- ----------------------------------------------------------------- -/
/- A small backtracking matcher for the regular expressions used by the
   sources.  `reMatch` implements `re.match` (anchored at the start, the
   end left free unless `eol` is present): it returns the captured groups
   of the leftmost-priority match, with greedy quantifiers trying longer
   candidates first and lazy quantifiers shorter ones first. -/

inductive RElem where
  | lit (cs : Str)
  | cls (f : Char → Bool) (minOne : Bool) (lazy : Bool) (capture : Bool)
  | eol

/-- Prefix removal, optionally case-insensitive (for `re.IGNORECASE`). -/
def dropPfxCI (ci : Bool) : Str → Str → Option Str
  | [], s => some s
  | _ :: _, [] => none
  | p :: ps, c :: cs =>
      if (if ci then p.toLower = c.toLower else p = c) then dropPfxCI ci ps cs
      else none

def firstSome {α : Type} : List (Option α) → Option α
  | [] => none
  | some a :: _ => some a
  | none :: rest => firstSome rest

def reMatch (ci : Bool) : List RElem → Str → Option (List Str)
  | [], _ => some []
  | .lit cs :: es, s =>
      match dropPfxCI ci cs s with
      | some s2 => reMatch ci es s2
      | none => none
  | .eol :: es, s => if s.isEmpty then reMatch ci es s else none
  | .cls f minOne lzy cap :: es, s =>
      let maxLen := (s.takeWhile f).length
      let lo : Nat := if minOne then 1 else 0
      let asc := (List.range (maxLen + 1)).filter (fun k => lo ≤ k)
      let ks := if lzy then asc else asc.reverse
      firstSome (ks.map (fun k =>
        match reMatch ci es (s.drop k) with
        | some gs => some (if cap then s.take k :: gs else gs)
        | none => none))

/-- `\s` of the `re` module. -/
def reIsSpace (c : Char) : Bool := pyIsSpace c

/-- `\w` of the `re` module (ASCII inputs). -/
def reIsWord (c : Char) : Bool :=
  ('a' ≤ c && c ≤ 'z') || ('A' ≤ c && c ≤ 'Z') || ('0' ≤ c && c ≤ '9') || c = '_'

/-- `.` of the `re` module: any character but a newline. -/
def reIsDot (c : Char) : Bool := c ≠ '\n'

/-- Pattern element for `\s+`. -/
def reWs1 : RElem := .cls reIsSpace true false false
/-- Pattern element for `\s*`. -/
def reWs0 : RElem := .cls reIsSpace false false false
/-- Pattern element for `(\w+)`. -/
def reWordG : RElem := .cls reIsWord true false true
/-- Pattern element for `\w+` (no capture). -/
def reWord : RElem := .cls reIsWord true false false
/-- Pattern element for `(.+)`. -/
def reAnyG : RElem := .cls reIsDot true false true
/-- Pattern element for `.+` (no capture). -/
def reAny1 : RElem := .cls reIsDot true false false
/-- Pattern element for `(.+?)`. -/
def reAnyLazyG : RElem := .cls reIsDot true true true
/-- Pattern element for `(.*)`. -/
def reStarG : RElem := .cls reIsDot false false true
/-- Pattern element for `(.*?)`. -/
def reStarLazyG : RElem := .cls reIsDot false true true

/- ----------------------------------------------------------------- -/
/- modules/utils/exceptions.py: the error taxonomy.  Only the kind tag and
   the message matter behaviourally; raising is modelled with `Except`. -/

inductive ErrKind where
  | pseudoJava      -- PseudoJavaError, the root kind
  | parseErr        -- ParseError
  | syntaxErr       -- SyntaxError
  | typeMismatch    -- TypeMismatchError
  | variableErr     -- VariableError
  | methodErr       -- MethodError
  | templateErr     -- TemplateError
  | fileErr         -- FileError
  | compilationErr  -- CompilationError
  | runtimeErr      -- RuntimeError
  | valueErr        -- Python built-in ValueError (raised by the monolithic parser)
deriving DecidableEq

structure PJError where
  kind : ErrKind
  msg : Str
deriving DecidableEq

instance {e a : Type} [DecidableEq e] [DecidableEq a] : DecidableEq (Except e a) := fun x y =>
  match x, y with
  | .ok u, .ok v => if h : u = v then isTrue (by rw [h]) else isFalse (by intro hc; cases hc; exact h rfl)
  | .error u, .error v => if h : u = v then isTrue (by rw [h]) else isFalse (by intro hc; cases hc; exact h rfl)
  | .ok _, .error _ => isFalse (by intro hc; cases hc)
  | .error _, .ok _ => isFalse (by intro hc; cases hc)

/- ----------------------------------------------------------------- -/
/- modules/core/data_structures.py -/

inductive Access where
  | publicA         -- "*"
  | privateA        -- "-"
  | protectedA      -- "+"
  | packagePrivateA -- ""
deriving DecidableEq

/-- `AccessModifier(access_char)` for the characters the parsers pass in. -/
def accessOfChar (c : Str) : Access :=
  if c = sl "*" then .publicA
  else if c = sl "-" then .privateA
  else if c = sl "+" then .protectedA
  else .packagePrivateA

structure Variable where
  name : Str
  type_ : Str
  access : Access
  initial_value : Option Str
  is_static : Bool
deriving DecidableEq

structure Method where
  name : Str
  parameters : List (Str × Str)  -- (name, type)
  return_type : Str
  access : Access
  body : List Str
  is_static : Bool
  is_constructor : Bool
deriving DecidableEq

structure Template where
  name : Str
  template_vars : List Variable
  instance_vars : List Variable
  constructors : List Method
  template_methods : List Method
  instance_methods : List Method
  getters_setters : List (Str × Access)
  is_abstract : Bool
  is_interface : Bool
  extendsT : Option Str   -- `extends` in the source; renamed (Lean keyword)
  implements : List Str
  abstract_methods : List Method
deriving DecidableEq

structure ParsedProgram where
  program_name : Str
  templates : List Template
  main_method_body : List Str
  standalone_methods : List Method
deriving DecidableEq

/-- `TypeMapping.map_type`: case-insensitive table lookup, unknown tokens
pass through unchanged. -/
def map_type (t : Str) : Str :=
  let k := pyLower t
  if k = sl "string" then sl "String"
  else if k = sl "int" then sl "int"
  else if k = sl "byte" then sl "byte"
  else if k = sl "short" then sl "short"
  else if k = sl "long" then sl "long"
  else if k = sl "float" then sl "float"
  else if k = sl "double" then sl "double"
  else if k = sl "boolean" then sl "boolean"
  else if k = sl "char" then sl "char"
  else if k = sl "arraylist" then sl "ArrayList"
  else if k = sl "list" then sl "List"
  else if k = sl "map" then sl "Map"
  else if k = sl "hashmap" then sl "HashMap"
  else if k = sl "set" then sl "Set"
  else if k = sl "hashset" then sl "HashSet"
  else t

/-- `TypeMapping.is_primitive_type`. -/
def is_primitive_type (t : Str) : Bool :=
  let k := pyLower t
  k = sl "int" || k = sl "byte" || k = sl "short" || k = sl "long" ||
  k = sl "float" || k = sl "double" || k = sl "boolean" || k = sl "char"

/-- `TypeMapping.get_wrapper_type`. -/
def get_wrapper_type (t : Str) : Str :=
  let k := pyLower t
  if k = sl "int" then sl "Integer"
  else if k = sl "double" then sl "Double"
  else if k = sl "float" then sl "Float"
  else if k = sl "boolean" then sl "Boolean"
  else if k = sl "byte" then sl "Byte"
  else if k = sl "short" then sl "Short"
  else if k = sl "long" then sl "Long"
  else if k = sl "char" then sl "Character"
  else t

/- ----------------------------------------------------------------- -/
/- modules/config/synonyms.py: the default SynonymConfig word lists. -/

def template_synonyms : List Str := [sl "template", sl "blueprint", sl "design", sl "class"]

def abstract_methods_synonyms : List Str := [sl "abstract methods", sl "must-do methods"]

def object_creation_verbs : List Str :=
  [sl "create", sl "make", sl "spawn", sl "build", sl "initialize"]

def listHas (xs : List Str) (x : Str) : Bool := xs.any (fun y => y = x)

/- ----------------------------------------------------------------- -/
/- modules/parsers/variable_parser.py -/

/-- `VariableParser._process_collection_type`. -/
def process_collection_type (type_ : Str) (initial_value : Option Str) :
    Str × Option Str :=
  if !containsSub type_ (sl "/") then (map_type type_, initial_value)
  else
    match pySplitOnce type_ (sl "/") with
    | none => (map_type type_, initial_value)  -- unreachable: '/' is present
    | some (c0, e0) =>
        let container_type := pyLower (pyStrip c0)
        let element_type := pyStrip e0
        let mapped_container := map_type container_type
        let mapped_element0 := map_type element_type
        let mapped_element :=
          if is_primitive_type mapped_element0 then get_wrapper_type mapped_element0
          else mapped_element0
        if container_type = sl "arraylist" || container_type = sl "list" then
          let ft := sl "ArrayList<" ++ mapped_element ++ sl ">"
          if !optTruthy initial_value || initial_value = some (sl "arraylist") then
            (ft, some (sl "new ArrayList<" ++ mapped_element ++ sl ">()"))
          else (ft, initial_value)
        else if container_type = sl "map" || container_type = sl "hashmap" then
          let ft := sl "HashMap<String, " ++ mapped_element ++ sl ">"
          if !optTruthy initial_value || initial_value = some (sl "hashmap") then
            (ft, some (sl "new HashMap<String, " ++ mapped_element ++ sl ">()"))
          else (ft, initial_value)
        else if container_type = sl "set" || container_type = sl "hashset" then
          let ft := sl "HashSet<" ++ mapped_element ++ sl ">"
          if !optTruthy initial_value || initial_value = some (sl "hashset") then
            (ft, some (sl "new HashSet<" ++ mapped_element ++ sl ">()"))
          else (ft, initial_value)
        else
          (mapped_container ++ sl "<" ++ mapped_element ++ sl ">", initial_value)

/-- The access-character stripping of `VariableParser.parse_variable`
(source lines 27-32): returns `(access_char, remaining line)`. -/
def stripAccessChar (line0 : Str) : Str × Str :=
  let access_char :=
    match line0 with
    | c :: _ => if c = '*' || c = '-' || c = '+' then [c] else []
    | [] => []
  (access_char, if access_char.isEmpty then line0 else pyStrip (line0.drop 1))

/-- The initializer split of `VariableParser.parse_variable` (source lines
35-49): first ` with `, else ` = `, else no initializer. -/
def declSplit (line : Str) : Str × Option Str :=
  if containsSub line (sl " with ") then
    match pySplitOnce line (sl " with ") with
    | some (v, iv) => (pyStrip v, some (pyStrip iv))
    | none => (pyStrip line, none)
  else if containsSub line (sl " = ") then
    match pySplitOnce line (sl " = ") with
    | some (v, iv) => (pyStrip v, some (pyStrip iv))
    | none => (pyStrip line, none)
  else (pyStrip line, none)

/-- `VariableParser.parse_variable`: parse one declaration line (the element
at `start_idx`), or fail.  Returns the optional variable and the next index. -/
def parse_variable (lines : List Str) (start_idx : Nat) (is_static : Bool) :
    Except PJError (Option Variable × Nat) :=
  let line0 := pyStrip (lines.getD start_idx [])
  if line0.isEmpty || startsWithS line0 (sl "//") then
    .ok (none, start_idx + 1)
  else
    let ac_line := stripAccessChar line0
    let access := accessOfChar ac_line.1
    let vp_iv := declSplit ac_line.2
    if !containsSub vp_iv.1 (sl " as ") then
      .error ⟨.pseudoJava,
        sl "Variable declaration '" ++ ac_line.2 ++
        sl "' must use 'name as type' syntax. Example: 'studentId as int' or 'name as string'"⟩
    else
      match pySplitOnce vp_iv.1 (sl " as ") with
      | none => .ok (none, start_idx + 1)  -- unreachable: " as " is present
      | some (name_part, type_part) =>
          let name := pyStrip name_part
          let type0 := pyStrip type_part
          let ty_iv := process_collection_type type0 vp_iv.2
          .ok (some ⟨name, ty_iv.1, access, ty_iv.2, is_static⟩, start_idx + 1)

/- ----------------------------------------------------------------- -/
/- modules/parsers/statement_parser.py: the collection-operation sub-dialect. -/

/-- The boolean phrase patterns of `StatementParser._is_collection_operation`,
in source order; each is matched with `re.match` against the lower-cased
statement. -/
def collOpPatterns : List (List RElem) :=
  [ -- add\s+.+\s+to\s+\w+
    [.lit (sl "add"), reWs1, reAny1, reWs1, .lit (sl "to"), reWs1, reWord],
    -- append\s+.+\s+to\s+\w+
    [.lit (sl "append"), reWs1, reAny1, reWs1, .lit (sl "to"), reWs1, reWord],
    -- remove\s+.+\s+from\s+\w+
    [.lit (sl "remove"), reWs1, reAny1, reWs1, .lit (sl "from"), reWs1, reWord],
    -- remove\s+index\s+.+\s+from\s+\w+
    [.lit (sl "remove"), reWs1, .lit (sl "index"), reWs1, reAny1, reWs1, .lit (sl "from"), reWs1, reWord],
    -- remove\s+value\s+.+\s+from\s+\w+
    [.lit (sl "remove"), reWs1, .lit (sl "value"), reWs1, reAny1, reWs1, .lit (sl "from"), reWs1, reWord],
    -- clear\s+\w+
    [.lit (sl "clear"), reWs1, reWord],
    -- size\s+of\s+\w+
    [.lit (sl "size"), reWs1, .lit (sl "of"), reWs1, reWord],
    -- length\s+of\s+\w+
    [.lit (sl "length"), reWs1, .lit (sl "of"), reWs1, reWord],
    -- count\s+of\s+\w+
    [.lit (sl "count"), reWs1, .lit (sl "of"), reWs1, reWord],
    -- is\s+empty\s+\w+
    [.lit (sl "is"), reWs1, .lit (sl "empty"), reWs1, reWord],
    -- contains\s+.+\s+in\s+\w+
    [.lit (sl "contains"), reWs1, reAny1, reWs1, .lit (sl "in"), reWs1, reWord],
    -- has\s+.+\s+in\s+\w+
    [.lit (sl "has"), reWs1, reAny1, reWs1, .lit (sl "in"), reWs1, reWord],
    -- index\s+of\s+.+\s+in\s+\w+
    [.lit (sl "index"), reWs1, .lit (sl "of"), reWs1, reAny1, reWs1, .lit (sl "in"), reWs1, reWord],
    -- get\s+.+\s+from\s+\w+
    [.lit (sl "get"), reWs1, reAny1, reWs1, .lit (sl "from"), reWs1, reWord],
    -- get\s+item\s+at\s+.+\s+from\s+\w+
    [.lit (sl "get"), reWs1, .lit (sl "item"), reWs1, .lit (sl "at"), reWs1, reAny1, reWs1, .lit (sl "from"), reWs1, reWord],
    -- get\s+first\s+from\s+\w+
    [.lit (sl "get"), reWs1, .lit (sl "first"), reWs1, .lit (sl "from"), reWs1, reWord],
    -- get\s+last\s+from\s+\w+
    [.lit (sl "get"), reWs1, .lit (sl "last"), reWs1, .lit (sl "from"), reWs1, reWord],
    -- first\s+in\s+\w+
    [.lit (sl "first"), reWs1, .lit (sl "in"), reWs1, reWord],
    -- last\s+in\s+\w+
    [.lit (sl "last"), reWs1, .lit (sl "in"), reWs1, reWord],
    -- set\s+.+\s+in\s+\w+\s+to\s+.+
    [.lit (sl "set"), reWs1, reAny1, reWs1, .lit (sl "in"), reWs1, reWord, reWs1, .lit (sl "to"), reWs1, reAny1],
    -- set\s+item\s+at\s+.+\s+in\s+\w+\s+to\s+.+
    [.lit (sl "set"), reWs1, .lit (sl "item"), reWs1, .lit (sl "at"), reWs1, reAny1, reWs1, .lit (sl "in"), reWs1, reWord, reWs1, .lit (sl "to"), reWs1, reAny1],
    -- insert\s+.+\s+into\s+\w+\s+at\s+.+
    [.lit (sl "insert"), reWs1, reAny1, reWs1, .lit (sl "into"), reWs1, reWord, reWs1, .lit (sl "at"), reWs1, reAny1],
    -- put\s+.+\s+with\s+.+\s+in\s+\w+
    [.lit (sl "put"), reWs1, reAny1, reWs1, .lit (sl "with"), reWs1, reAny1, reWs1, .lit (sl "in"), reWs1, reWord],
    -- keys\s+of\s+\w+
    [.lit (sl "keys"), reWs1, .lit (sl "of"), reWs1, reWord],
    -- values\s+of\s+\w+
    [.lit (sl "values"), reWs1, .lit (sl "of"), reWs1, reWord],
    -- push\s+.+\s+to\s+\w+
    [.lit (sl "push"), reWs1, reAny1, reWs1, .lit (sl "to"), reWs1, reWord],
    -- pop\s+from\s+\w+
    [.lit (sl "pop"), reWs1, .lit (sl "from"), reWs1, reWord],
    -- peek\s+\w+
    [.lit (sl "peek"), reWs1, reWord],
    -- enqueue\s+.+\s+to\s+\w+
    [.lit (sl "enqueue"), reWs1, reAny1, reWs1, .lit (sl "to"), reWs1, reWord],
    -- dequeue\s+from\s+\w+
    [.lit (sl "dequeue"), reWs1, .lit (sl "from"), reWs1, reWord],
    -- offer\s+.+\s+to\s+\w+
    [.lit (sl "offer"), reWs1, reAny1, reWs1, .lit (sl "to"), reWs1, reWord],
    -- poll\s+from\s+\w+
    [.lit (sl "poll"), reWs1, .lit (sl "from"), reWs1, reWord],
    -- add\s+first\s+.+\s+to\s+\w+
    [.lit (sl "add"), reWs1, .lit (sl "first"), reWs1, reAny1, reWs1, .lit (sl "to"), reWs1, reWord],
    -- add\s+last\s+.+\s+to\s+\w+
    [.lit (sl "add"), reWs1, .lit (sl "last"), reWs1, reAny1, reWs1, .lit (sl "to"), reWs1, reWord],
    -- pop\s+first\s+from\s+\w+
    [.lit (sl "pop"), reWs1, .lit (sl "first"), reWs1, .lit (sl "from"), reWs1, reWord],
    -- pop\s+last\s+from\s+\w+
    [.lit (sl "pop"), reWs1, .lit (sl "last"), reWs1, .lit (sl "from"), reWs1, reWord],
    -- \w+\.add\s*\(\s*first\s+.+\)
    [reWord, .lit (sl ".add"), reWs0, .lit (sl "("), reWs0, .lit (sl "first"), reWs1, reAny1, .lit (sl ")")],
    -- \w+\.add\s*\(\s*last\s+.+\)
    [reWord, .lit (sl ".add"), reWs0, .lit (sl "("), reWs0, .lit (sl "last"), reWs1, reAny1, .lit (sl ")")],
    -- \w+\.set\s*\(.+\)
    [reWord, .lit (sl ".set"), reWs0, .lit (sl "("), reAny1, .lit (sl ")")],
    -- sort\s+\w+
    [.lit (sl "sort"), reWs1, reWord],
    -- reverse\s+\w+
    [.lit (sl "reverse"), reWs1, reWord],
    -- shuffle\s+\w+
    [.lit (sl "shuffle"), reWs1, reWord] ]

/-- `StatementParser._is_collection_operation`. -/
def is_collection_operation (statement : Str) : Bool :=
  if startsWithS statement (sl "print ") then false
  else
    let stmt_lower := pyLower statement
    collOpPatterns.any (fun p => (reMatch false p stmt_lower).isSome)

/-- Boolean `re.match(pattern, stmt_lower)` for one encoded pattern. -/
def bm (p : List RElem) (statement : Str) : Bool :=
  (reMatch false p (pyLower statement)).isSome

/-- The conversion cascade of
`StatementParser._convert_collection_operation_expression`, one `Option`
step per `if` block of the source (a `none` falls through to the next
block, exactly as the source's control flow does). -/
def collOpSteps : List (Str → Option Str) :=
  [ -- if …'\w+\.add\s*\(\s*first\s+.+\)'… → (\w+)\.add\s*\(\s*first\s+(.+)\) [IGNORECASE]
    fun s =>
      if bm [reWord, .lit (sl ".add"), reWs0, .lit (sl "("), reWs0, .lit (sl "first"), reWs1, reAny1, .lit (sl ")")] s then
        match reMatch true [reWordG, .lit (sl ".add"), reWs0, .lit (sl "("), reWs0, .lit (sl "first"), reWs1, reAnyG, .lit (sl ")")] s with
        | some [c, item] => some (c ++ sl ".addFirst(" ++ pyStrip item ++ sl ")")
        | _ => none
      else none,
    -- …add(last…
    fun s =>
      if bm [reWord, .lit (sl ".add"), reWs0, .lit (sl "("), reWs0, .lit (sl "last"), reWs1, reAny1, .lit (sl ")")] s then
        match reMatch true [reWordG, .lit (sl ".add"), reWs0, .lit (sl "("), reWs0, .lit (sl "last"), reWs1, reAnyG, .lit (sl ")")] s with
        | some [c, item] => some (c ++ sl ".addLast(" ++ pyStrip item ++ sl ")")
        | _ => none
      else none,
    -- …\w+\.set\s*\(.+\)… → (\w+)\.set\s*\(\s*(.+?)\s*,\s*(.+?)\s*\)
    fun s =>
      if bm [reWord, .lit (sl ".set"), reWs0, .lit (sl "("), reAny1, .lit (sl ")")] s then
        match reMatch true [reWordG, .lit (sl ".set"), reWs0, .lit (sl "("), reWs0, reAnyLazyG, reWs0, .lit (sl ","), reWs0, reAnyLazyG, reWs0, .lit (sl ")")] s with
        | some [c, k, v] => some (c ++ sl ".put(" ++ pyStrip k ++ sl ", " ++ pyStrip v ++ sl ")")
        | _ => none
      else none,
    -- add X to C → C.add(X)
    fun s =>
      if bm [.lit (sl "add"), reWs1, reAny1, reWs1, .lit (sl "to"), reWs1, reWord] s then
        match reMatch true [.lit (sl "add"), reWs1, reAnyLazyG, reWs1, .lit (sl "to"), reWs1, reWordG] s with
        | some [item, c] => some (c ++ sl ".add(" ++ pyStrip item ++ sl ")")
        | _ => none
      else none,
    -- append X to C → C.add(X)
    fun s =>
      if bm [.lit (sl "append"), reWs1, reAny1, reWs1, .lit (sl "to"), reWs1, reWord] s then
        match reMatch true [.lit (sl "append"), reWs1, reAnyLazyG, reWs1, .lit (sl "to"), reWs1, reWordG] s with
        | some [item, c] => some (c ++ sl ".add(" ++ pyStrip item ++ sl ")")
        | _ => none
      else none,
    -- remove index / remove value / remove (one if/elif chain in the source)
    fun s =>
      if bm [.lit (sl "remove"), reWs1, .lit (sl "index"), reWs1, reAny1, reWs1, .lit (sl "from"), reWs1, reWord] s then
        match reMatch true [.lit (sl "remove"), reWs1, .lit (sl "index"), reWs1, reAnyLazyG, reWs1, .lit (sl "from"), reWs1, reWordG] s with
        | some [idx, c] => some (c ++ sl ".remove(" ++ pyStrip idx ++ sl ")")
        | _ => none
      else if bm [.lit (sl "remove"), reWs1, .lit (sl "value"), reWs1, reAny1, reWs1, .lit (sl "from"), reWs1, reWord] s then
        match reMatch true [.lit (sl "remove"), reWs1, .lit (sl "value"), reWs1, reAnyLazyG, reWs1, .lit (sl "from"), reWs1, reWordG] s with
        | some [v0, c] =>
            let v := pyStrip v0
            if pyIsDigit v && !startsWithS v (sl "\x22") then
              some (c ++ sl ".remove(Integer.valueOf(" ++ v ++ sl "))")
            else some (c ++ sl ".remove(" ++ v ++ sl ")")
        | _ => none
      else if bm [.lit (sl "remove"), reWs1, reAny1, reWs1, .lit (sl "from"), reWs1, reWord] s then
        match reMatch true [.lit (sl "remove"), reWs1, reAnyLazyG, reWs1, .lit (sl "from"), reWs1, reWordG] s with
        | some [item0, c] =>
            let item := pyStrip item0
            if startsWithS item (sl "\x22") && endsWithS item (sl "\x22") then
              some (c ++ sl ".remove(" ++ item ++ sl ")")
            else if pyIsDigit item then
              some (c ++ sl ".remove(Integer.valueOf(" ++ item ++ sl "))")
            else some (c ++ sl ".remove(" ++ item ++ sl ")")
        | _ => none
      else none,
    -- clear C → C.clear()  (collection = statement[6:].strip())
    fun s =>
      if bm [.lit (sl "clear"), reWs1, reWord] s then
        some (pyStrip (s.drop 6) ++ sl ".clear()")
      else none,
    -- size of C → C.size()  (statement[8:])
    fun s =>
      if bm [.lit (sl "size"), reWs1, .lit (sl "of"), reWs1, reWord] s then
        some (pyStrip (s.drop 8) ++ sl ".size()")
      else none,
    -- length of C → C.size()  (statement[10:])
    fun s =>
      if bm [.lit (sl "length"), reWs1, .lit (sl "of"), reWs1, reWord] s then
        some (pyStrip (s.drop 10) ++ sl ".size()")
      else none,
    -- count of C → C.size()  (statement[9:])
    fun s =>
      if bm [.lit (sl "count"), reWs1, .lit (sl "of"), reWs1, reWord] s then
        some (pyStrip (s.drop 9) ++ sl ".size()")
      else none,
    -- contains X in C → C.contains(X)
    fun s =>
      if bm [.lit (sl "contains"), reWs1, reAny1, reWs1, .lit (sl "in"), reWs1, reWord] s then
        match reMatch true [.lit (sl "contains"), reWs1, reAnyLazyG, reWs1, .lit (sl "in"), reWs1, reWordG] s with
        | some [item, c] => some (c ++ sl ".contains(" ++ pyStrip item ++ sl ")")
        | _ => none
      else none,
    -- has X in C → C.contains(X)
    fun s =>
      if bm [.lit (sl "has"), reWs1, reAny1, reWs1, .lit (sl "in"), reWs1, reWord] s then
        match reMatch true [.lit (sl "has"), reWs1, reAnyLazyG, reWs1, .lit (sl "in"), reWs1, reWordG] s with
        | some [item, c] => some (c ++ sl ".contains(" ++ pyStrip item ++ sl ")")
        | _ => none
      else none,
    -- get item at / get first / get last / get (one if/elif chain)
    fun s =>
      if bm [.lit (sl "get"), reWs1, .lit (sl "item"), reWs1, .lit (sl "at"), reWs1, reAny1, reWs1, .lit (sl "from"), reWs1, reWord] s then
        match reMatch true [.lit (sl "get"), reWs1, .lit (sl "item"), reWs1, .lit (sl "at"), reWs1, reAnyLazyG, reWs1, .lit (sl "from"), reWs1, reWordG] s with
        | some [idx, c] => some (c ++ sl ".get(" ++ pyStrip idx ++ sl ")")
        | _ => none
      else if bm [.lit (sl "get"), reWs1, .lit (sl "first"), reWs1, .lit (sl "from"), reWs1, reWord] s then
        some (pyStrip (s.drop 15) ++ sl ".getFirst()")
      else if bm [.lit (sl "get"), reWs1, .lit (sl "last"), reWs1, .lit (sl "from"), reWs1, reWord] s then
        some (pyStrip (s.drop 14) ++ sl ".getLast()")
      else if bm [.lit (sl "get"), reWs1, reAny1, reWs1, .lit (sl "from"), reWs1, reWord] s then
        match reMatch true [.lit (sl "get"), reWs1, reAnyLazyG, reWs1, .lit (sl "from"), reWs1, reWordG] s with
        | some [idx, c] => some (c ++ sl ".get(" ++ pyStrip idx ++ sl ")")
        | _ => none
      else none,
    -- set item at I in C to V / set I in C to V (one if/elif chain)
    fun s =>
      if bm [.lit (sl "set"), reWs1, .lit (sl "item"), reWs1, .lit (sl "at"), reWs1, reAny1, reWs1, .lit (sl "in"), reWs1, reWord, reWs1, .lit (sl "to"), reWs1, reAny1] s then
        match reMatch true [.lit (sl "set"), reWs1, .lit (sl "item"), reWs1, .lit (sl "at"), reWs1, reAnyLazyG, reWs1, .lit (sl "in"), reWs1, reWordG, reWs1, .lit (sl "to"), reWs1, reAnyG] s with
        | some [idx, c, v] => some (c ++ sl ".set(" ++ pyStrip idx ++ sl ", " ++ pyStrip v ++ sl ")")
        | _ => none
      else if bm [.lit (sl "set"), reWs1, reAny1, reWs1, .lit (sl "in"), reWs1, reWord, reWs1, .lit (sl "to"), reWs1, reAny1] s then
        match reMatch true [.lit (sl "set"), reWs1, reAnyLazyG, reWs1, .lit (sl "in"), reWs1, reWordG, reWs1, .lit (sl "to"), reWs1, reAnyG] s with
        | some [idx, c, v] => some (c ++ sl ".set(" ++ pyStrip idx ++ sl ", " ++ pyStrip v ++ sl ")")
        | _ => none
      else none,
    -- insert X into C at I → C.add(I, X)
    fun s =>
      if bm [.lit (sl "insert"), reWs1, reAny1, reWs1, .lit (sl "into"), reWs1, reWord, reWs1, .lit (sl "at"), reWs1, reAny1] s then
        match reMatch true [.lit (sl "insert"), reWs1, reAnyLazyG, reWs1, .lit (sl "into"), reWs1, reWordG, reWs1, .lit (sl "at"), reWs1, reAnyG] s with
        | some [item, c, idx] => some (c ++ sl ".add(" ++ pyStrip idx ++ sl ", " ++ pyStrip item ++ sl ")")
        | _ => none
      else none,
    -- first in C → C.get(0)  (statement[9:])
    fun s =>
      if bm [.lit (sl "first"), reWs1, .lit (sl "in"), reWs1, reWord] s then
        some (pyStrip (s.drop 9) ++ sl ".get(0)")
      else none,
    -- last in C → C.get(C.size() - 1)  (statement[8:])
    fun s =>
      if bm [.lit (sl "last"), reWs1, .lit (sl "in"), reWs1, reWord] s then
        let c := pyStrip (s.drop 8)
        some (c ++ sl ".get(" ++ c ++ sl ".size() - 1)")
      else none,
    -- index of X in C → C.indexOf(X)
    fun s =>
      if bm [.lit (sl "index"), reWs1, .lit (sl "of"), reWs1, reAny1, reWs1, .lit (sl "in"), reWs1, reWord] s then
        match reMatch true [.lit (sl "index"), reWs1, .lit (sl "of"), reWs1, reAnyLazyG, reWs1, .lit (sl "in"), reWs1, reWordG] s with
        | some [item, c] => some (c ++ sl ".indexOf(" ++ pyStrip item ++ sl ")")
        | _ => none
      else none,
    -- is empty C → C.isEmpty()  (statement[9:])
    fun s =>
      if bm [.lit (sl "is"), reWs1, .lit (sl "empty"), reWs1, reWord] s then
        some (pyStrip (s.drop 9) ++ sl ".isEmpty()")
      else none,
    -- put K with V in C → C.put(K, V)
    fun s =>
      if bm [.lit (sl "put"), reWs1, reAny1, reWs1, .lit (sl "with"), reWs1, reAny1, reWs1, .lit (sl "in"), reWs1, reWord] s then
        match reMatch true [.lit (sl "put"), reWs1, reAnyLazyG, reWs1, .lit (sl "with"), reWs1, reAnyLazyG, reWs1, .lit (sl "in"), reWs1, reWordG] s with
        | some [k, v, c] => some (c ++ sl ".put(" ++ pyStrip k ++ sl ", " ++ pyStrip v ++ sl ")")
        | _ => none
      else none,
    -- keys of C → C.keySet()  (statement[8:])
    fun s =>
      if bm [.lit (sl "keys"), reWs1, .lit (sl "of"), reWs1, reWord] s then
        some (pyStrip (s.drop 8) ++ sl ".keySet()")
      else none,
    -- values of C → C.values()  (statement[10:])
    fun s =>
      if bm [.lit (sl "values"), reWs1, .lit (sl "of"), reWs1, reWord] s then
        some (pyStrip (s.drop 10) ++ sl ".values()")
      else none,
    -- push X to C → C.push(X)
    fun s =>
      if bm [.lit (sl "push"), reWs1, reAny1, reWs1, .lit (sl "to"), reWs1, reWord] s then
        match reMatch true [.lit (sl "push"), reWs1, reAnyLazyG, reWs1, .lit (sl "to"), reWs1, reWordG] s with
        | some [item, c] => some (c ++ sl ".push(" ++ pyStrip item ++ sl ")")
        | _ => none
      else none,
    -- pop from C → C.pop()  (statement[9:])
    fun s =>
      if bm [.lit (sl "pop"), reWs1, .lit (sl "from"), reWs1, reWord] s then
        some (pyStrip (s.drop 9) ++ sl ".pop()")
      else none,
    -- peek C → C.peek()  (statement[5:])
    fun s =>
      if bm [.lit (sl "peek"), reWs1, reWord] s then
        some (pyStrip (s.drop 5) ++ sl ".peek()")
      else none,
    -- enqueue X to C → C.offer(X)
    fun s =>
      if bm [.lit (sl "enqueue"), reWs1, reAny1, reWs1, .lit (sl "to"), reWs1, reWord] s then
        match reMatch true [.lit (sl "enqueue"), reWs1, reAnyLazyG, reWs1, .lit (sl "to"), reWs1, reWordG] s with
        | some [item, c] => some (c ++ sl ".offer(" ++ pyStrip item ++ sl ")")
        | _ => none
      else none,
    -- dequeue from C → C.poll()  (statement[13:])
    fun s =>
      if bm [.lit (sl "dequeue"), reWs1, .lit (sl "from"), reWs1, reWord] s then
        some (pyStrip (s.drop 13) ++ sl ".poll()")
      else none,
    -- offer X to C → C.offer(X)
    fun s =>
      if bm [.lit (sl "offer"), reWs1, reAny1, reWs1, .lit (sl "to"), reWs1, reWord] s then
        match reMatch true [.lit (sl "offer"), reWs1, reAnyLazyG, reWs1, .lit (sl "to"), reWs1, reWordG] s with
        | some [item, c] => some (c ++ sl ".offer(" ++ pyStrip item ++ sl ")")
        | _ => none
      else none,
    -- poll from C → C.poll()  (statement[10:])
    fun s =>
      if bm [.lit (sl "poll"), reWs1, .lit (sl "from"), reWs1, reWord] s then
        some (pyStrip (s.drop 10) ++ sl ".poll()")
      else none,
    -- add first X to C → C.addFirst(X)
    fun s =>
      if bm [.lit (sl "add"), reWs1, .lit (sl "first"), reWs1, reAny1, reWs1, .lit (sl "to"), reWs1, reWord] s then
        match reMatch true [.lit (sl "add"), reWs1, .lit (sl "first"), reWs1, reAnyLazyG, reWs1, .lit (sl "to"), reWs1, reWordG] s with
        | some [item, c] => some (c ++ sl ".addFirst(" ++ pyStrip item ++ sl ")")
        | _ => none
      else none,
    -- add last X to C → C.addLast(X)
    fun s =>
      if bm [.lit (sl "add"), reWs1, .lit (sl "last"), reWs1, reAny1, reWs1, .lit (sl "to"), reWs1, reWord] s then
        match reMatch true [.lit (sl "add"), reWs1, .lit (sl "last"), reWs1, reAnyLazyG, reWs1, .lit (sl "to"), reWs1, reWordG] s with
        | some [item, c] => some (c ++ sl ".addLast(" ++ pyStrip item ++ sl ")")
        | _ => none
      else none,
    -- pop first from C → C.removeFirst()  (statement[15:])
    fun s =>
      if bm [.lit (sl "pop"), reWs1, .lit (sl "first"), reWs1, .lit (sl "from"), reWs1, reWord] s then
        some (pyStrip (s.drop 15) ++ sl ".removeFirst()")
      else none,
    -- pop last from C → C.removeLast()  (statement[14:])
    fun s =>
      if bm [.lit (sl "pop"), reWs1, .lit (sl "last"), reWs1, .lit (sl "from"), reWs1, reWord] s then
        some (pyStrip (s.drop 14) ++ sl ".removeLast()")
      else none,
    -- sort C → Collections.sort(C)  (statement[5:])
    fun s =>
      if bm [.lit (sl "sort"), reWs1, reWord] s then
        some (sl "Collections.sort(" ++ pyStrip (s.drop 5) ++ sl ")")
      else none,
    -- reverse C → Collections.reverse(C)  (statement[8:])
    fun s =>
      if bm [.lit (sl "reverse"), reWs1, reWord] s then
        some (sl "Collections.reverse(" ++ pyStrip (s.drop 8) ++ sl ")")
      else none,
    -- shuffle C → Collections.shuffle(C)  (statement[8:])
    fun s =>
      if bm [.lit (sl "shuffle"), reWs1, reWord] s then
        some (sl "Collections.shuffle(" ++ pyStrip (s.drop 8) ++ sl ")")
      else none ]

/-- `StatementParser._convert_collection_operation_expression`: first
successful step of the cascade, else the statement unchanged. -/
def convert_collection_operation_expression (statement : Str) : Str :=
  (firstSome (collOpSteps.map (fun f => f statement))).getD statement

/-- `StatementParser._convert_collection_operation`. -/
def convert_collection_operation (statement : Str) : Str :=
  let converted := convert_collection_operation_expression statement
  if !endsWithS converted (sl ";") then converted ++ sl ";" else converted

/- ----------------------------------------------------------------- -/
/- modules/parsers/statement_parser.py: print conversion. -/

/-- `re.findall(r'\x7b([^\x7d]+)\x7d', content)`: scan left to right; at each
`\x7b` take the maximal non-empty run of characters other than `\x7d`; the
match needs a closing `\x7d`; scanning resumes after it (on failure, after
the opening brace). -/
def findBraceSegsF (fuel : Nat) : Str → List Str
  | [] => []
  | c :: s =>
      match fuel with
      | 0 => []
      | f + 1 =>
          if c = '\x7b' then
            let seg := s.takeWhile (fun x => x ≠ '\x7d')
            let rest := s.drop seg.length
            if seg.isEmpty || rest.isEmpty then findBraceSegsF f s
            else seg :: findBraceSegsF f (rest.drop 1)
          else findBraceSegsF f s

def findBraceSegs (s : Str) : List Str := findBraceSegsF s.length s

/-- The body of the `for var in variables` loop of
`StatementParser._convert_interpolated_print`, threading
`(format_str, args)`. -/
def interpStep (fa : Str × List Str) (var : Str) : Str × List Str :=
  let format_str := fa.1
  let args := fa.2
  let wrapped := sl "\x7b" ++ var ++ sl "\x7d"
  if containsSub var (sl ":") then
    match pySplitOnce var (sl ":") with
    | none => (format_str, args)  -- unreachable: ':' is present
    | some (vn, fs) =>
        let var_name := pyStrip vn
        let format_spec := pyStrip fs
        let format_placeholder :=
          if endsWithS format_spec (sl "f") then
            if containsSub format_spec (sl ".") then
              let precision := ((pySplit format_spec (sl ".")).getD 1 []).dropLast
              sl "%." ++ precision ++ sl "f"
            else sl "%f"
          else if format_spec = sl "d" then sl "%d"
          else sl "%s"
        (replaceAll format_str wrapped format_placeholder, args ++ [var_name])
  else
    if is_collection_operation var then
      let converted_var := convert_collection_operation_expression var
      (replaceAll format_str wrapped (sl "%s"), args ++ [sl "(" ++ converted_var ++ sl ")"])
    else if [sl "+", sl "-", sl "*", sl "/", sl ".", sl "("].any
        (fun op => containsSub var op) then
      (replaceAll format_str wrapped (sl "%s"), args ++ [sl "(" ++ var ++ sl ")"])
    else
      (replaceAll format_str wrapped (sl "%s"), args ++ [var])

/-- `StatementParser._convert_interpolated_print`. -/
def convert_interpolated_print (content : Str) : Str :=
  let vars0 := findBraceSegs content
  let fa := vars0.foldl interpStep (content, [])
  let format_str := replaceAll fa.1 (sl "\x22") (sl "\x5c\x22")
  if !fa.2.isEmpty then
    sl "System.out.println(String.format(\x22" ++ format_str ++ sl "\x22, " ++
      joinSep (sl ", ") fa.2 ++ sl "));"
  else
    sl "System.out.println(\x22" ++ format_str ++ sl "\x22);"

/-- `StatementParser._convert_simple_print`. -/
def convert_simple_print (statement : Str) : Str :=
  let content := pyStrip (statement.drop 6)
  if startsWithS content (sl "\x22") && endsWithS content (sl "\x22") then
    sl "System.out.println(" ++ content ++ sl ");"
  else convert_interpolated_print content

/-- `StatementParser._convert_fstring_print`:
`re.match(r'print f\x22(.*?)\x22', statement)`. -/
def convert_fstring_print (statement : Str) : Str :=
  match reMatch false [.lit (sl "print f\x22"), .cls (fun c => c ≠ '\n') false true true, .lit (sl "\x22")] statement with
  | some [content] => convert_interpolated_print content
  | _ => statement ++ sl ";"

/- ----------------------------------------------------------------- -/
/- modules/parsers/statement_parser.py: control flow and declarations. -/

/-- `StatementParser._convert_logical_operators`. -/
def convert_logical_operators (condition : Str) : Str :=
  let c1 := replaceAll condition (sl " and ") (sl " && ")
  let c2 := replaceAll c1 (sl " or ") (sl " || ")
  replaceAll c2 (sl " not ") (sl " !")

/-- `StatementParser._convert_if_statement`. -/
def convert_if_statement (statement : Str) : Str :=
  sl "if (" ++ convert_logical_operators (rstripColon (statement.drop 3)) ++ sl ") \x7b"

/-- `StatementParser._convert_elif_statement`. -/
def convert_elif_statement (statement : Str) : Str :=
  sl "\x7d else if (" ++ convert_logical_operators (rstripColon (statement.drop 5)) ++ sl ") \x7b"

/-- `StatementParser._convert_while_loop`. -/
def convert_while_loop (statement : Str) : Str :=
  sl "while (" ++ convert_logical_operators (rstripColon (statement.drop 6)) ++ sl ") \x7b"

/-- `StatementParser._convert_switch_statement`. -/
def convert_switch_statement (statement : Str) : Str :=
  sl "switch (" ++ rstripColon (statement.drop 7) ++ sl ") \x7b"

/-- `StatementParser._convert_for_loop`. -/
def convert_for_loop (statement : Str) : Str :=
  if containsSub statement (sl " in range(") then
    -- for\s+(\w+)\s+in\s+range\((.*?)\):
    match reMatch false [.lit (sl "for"), reWs1, reWordG, reWs1, .lit (sl "in"), reWs1, .lit (sl "range("), reStarLazyG, .lit (sl "):")] statement with
    | some [v, re0] =>
        let range_expr := pyStrip re0
        if !containsSub range_expr (sl ",") then
          sl "for (int " ++ v ++ sl " = 0; " ++ v ++ sl " < " ++ range_expr ++ sl "; " ++ v ++ sl "++) \x7b"
        else
          let range_args := pySplit range_expr (sl ",")
          let start := pyStrip (range_args.getD 0 [])
          let stop := pyStrip (range_args.getD 1 [])
          sl "for (int " ++ v ++ sl " = " ++ start ++ sl "; " ++ v ++ sl " < " ++ stop ++ sl "; " ++ v ++ sl "++) \x7b"
    | _ => statement
  else if containsSub statement (sl " in ") then
    -- for\s+(\w+)\s+in\s+([^:]+):
    match reMatch false [.lit (sl "for"), reWs1, reWordG, reWs1, .lit (sl "in"), reWs1, .cls (fun c => c ≠ ':') true false true, .lit (sl ":")] statement with
    | some [v, coll0] =>
        let collection := pyStrip coll0
        if startsWithS collection (sl "keys of ") then
          sl "for (var " ++ v ++ sl " : " ++ pyStrip (collection.drop 8) ++ sl ".keySet()) \x7b"
        else if startsWithS collection (sl "values of ") then
          sl "for (var " ++ v ++ sl " : " ++ pyStrip (collection.drop 10) ++ sl ".values()) \x7b"
        else if startsWithS collection (sl "each ") || startsWithS collection (sl "all ") then
          let actual_collection := (pySplitWs collection).getLastD []
          sl "for (var " ++ v ++ sl " : " ++ actual_collection ++ sl ") \x7b"
        else
          sl "for (var " ++ v ++ sl " : " ++ collection ++ sl ") \x7b"
    | _ => statement
  else statement

/-- `re.match(r'^[a-zA-Z_][a-zA-Z0-9_]*$', s)` of
`StatementParser._is_variable_declaration`. -/
def isIdentifier (s : Str) : Bool :=
  match s with
  | [] => false
  | c :: rest =>
      (('a' ≤ c && c ≤ 'z') || ('A' ≤ c && c ≤ 'Z') || c = '_') &&
      rest.all (fun x => ('a' ≤ x && x ≤ 'z') || ('A' ≤ x && x ≤ 'Z') || ('0' ≤ x && x ≤ '9') || x = '_')

def comparisonOps : List Str := [sl "==", sl "!=", sl "<=", sl ">="]

/-- `StatementParser._is_variable_declaration`. -/
def is_variable_declaration (statement : Str) : Bool :=
  if startsWithS statement (sl "var ") then true
  else if containsSub statement (sl " as ") then
    if containsSub statement (sl " with ") ||
        (containsSub statement (sl "=") &&
         !comparisonOps.any (fun op => containsSub statement op)) then true
    else
      let parts := pySplit statement (sl " as ")
      if parts.length = 2 then
        let name_part := pyStrip (parts.getD 0 [])
        let type_part := pyStrip (parts.getD 1 [])
        if isIdentifier name_part then
          !([sl " to ", sl " from ", sl " in ", sl " at ", sl " into "].any
            (fun kw => containsSub (pyLower type_part) kw))
        else false
      else false
  else false

/-- `StatementParser._process_collection_type_in_declaration` (the
statement-position variant, with the extended container vocabulary). -/
def process_collection_type_in_declaration (type_ : Str) (value : Option Str) :
    Str × Option Str :=
  if containsSub type_ (sl "/") then
    match pySplitOnce type_ (sl "/") with
    | none => (map_type type_, value)  -- unreachable: '/' is present
    | some (c0, e0) =>
        let container_type := pyLower (pyStrip c0)
        let element_type := pyStrip e0
        let mapped_container := map_type container_type
        let mapped_element0 := map_type element_type
        let mapped_element :=
          if is_primitive_type mapped_element0 then get_wrapper_type mapped_element0
          else mapped_element0
        if container_type = sl "arraylist" || container_type = sl "list" then
          (sl "ArrayList<" ++ mapped_element ++ sl ">",
           if !optTruthy value || value = some (sl "arraylist") then
             some (sl "new ArrayList<" ++ mapped_element ++ sl ">()") else value)
        else if container_type = sl "linkedlist" then
          (sl "LinkedList<" ++ mapped_element ++ sl ">",
           if !optTruthy value || value = some (sl "linkedlist") then
             some (sl "new LinkedList<" ++ mapped_element ++ sl ">()") else value)
        else if container_type = sl "map" || container_type = sl "hashmap" then
          (sl "HashMap<String, " ++ mapped_element ++ sl ">",
           if !optTruthy value || value = some (sl "hashmap") then
             some (sl "new HashMap<String, " ++ mapped_element ++ sl ">()") else value)
        else if container_type = sl "treemap" then
          (sl "TreeMap<String, " ++ mapped_element ++ sl ">",
           if !optTruthy value || value = some (sl "treemap") then
             some (sl "new TreeMap<String, " ++ mapped_element ++ sl ">()") else value)
        else if container_type = sl "set" || container_type = sl "hashset" then
          (sl "HashSet<" ++ mapped_element ++ sl ">",
           if !optTruthy value || value = some (sl "hashset") then
             some (sl "new HashSet<" ++ mapped_element ++ sl ">()") else value)
        else if container_type = sl "treeset" then
          (sl "TreeSet<" ++ mapped_element ++ sl ">",
           if !optTruthy value || value = some (sl "treeset") then
             some (sl "new TreeSet<" ++ mapped_element ++ sl ">()") else value)
        else if container_type = sl "stack" then
          (sl "Stack<" ++ mapped_element ++ sl ">",
           if !optTruthy value || value = some (sl "stack") then
             some (sl "new Stack<" ++ mapped_element ++ sl ">()") else value)
        else if container_type = sl "queue" then
          (sl "ArrayDeque<" ++ mapped_element ++ sl ">",
           if !optTruthy value || value = some (sl "queue") then
             some (sl "new ArrayDeque<" ++ mapped_element ++ sl ">()") else value)
        else if container_type = sl "deque" || container_type = sl "arraydeque" then
          (sl "ArrayDeque<" ++ mapped_element ++ sl ">",
           if !optTruthy value || value = some (sl "deque") || value = some (sl "arraydeque") then
             some (sl "new ArrayDeque<" ++ mapped_element ++ sl ">()") else value)
        else if container_type = sl "vector" then
          (sl "Vector<" ++ mapped_element ++ sl ">",
           if !optTruthy value || value = some (sl "vector") then
             some (sl "new Vector<" ++ mapped_element ++ sl ">()") else value)
        else
          (mapped_container ++ sl "<" ++ mapped_element ++ sl ">", value)
  else (map_type type_, value)

/-- `StatementParser._convert_variable_declaration` (raises on a `var`
declaration without ` = `). -/
def convert_variable_declaration (statement : Str) : Except PJError Str :=
  if startsWithS statement (sl "var ") then
    let var_content := pyStrip (statement.drop 4)
    if containsSub var_content (sl " = ") then
      match pySplitOnce var_content (sl " = ") with
      | none => .ok (statement ++ sl ";")  -- unreachable: " = " is present
      | some (n0, v0) =>
          let name := pyStrip n0
          let value0 := pyStrip v0
          let value :=
            if is_collection_operation value0 then
              convert_collection_operation_expression value0
            else value0
          .ok (sl "var " ++ name ++ sl " = " ++ value ++ sl ";")
    else
      .error ⟨.pseudoJava,
        sl "Variable declaration '" ++ statement ++ sl "' with 'var' requires initialization."⟩
  else if containsSub statement (sl " as ") then
    let vp_val : Str × Option Str :=
      if containsSub statement (sl " with ") then
        match pySplitOnce statement (sl " with ") with
        | some (v, w) => (pyStrip v, some (pyStrip w))
        | none => (statement, none)
      else if containsSub statement (sl " = ") then
        match pySplitOnce statement (sl " = ") with
        | some (v, w) =>
            let value0 := pyStrip w
            let value :=
              if !value0.isEmpty && is_collection_operation value0 then
                convert_collection_operation_expression value0
              else value0
            (pyStrip v, some value)
        | none => (statement, none)
      else (statement, none)
    let var_part := vp_val.1
    let value := vp_val.2
    if containsSub var_part (sl " as ") then
      match pySplitOnce var_part (sl " as ") with
      | none => .ok (statement ++ sl ";")  -- unreachable: " as " is present
      | some (n0, t0) =>
          let name := pyStrip n0
          let type0 := pyStrip t0
          let jt_fv := process_collection_type_in_declaration type0 value
          if optTruthy jt_fv.2 then
            .ok (jt_fv.1 ++ sl " " ++ name ++ sl " = " ++ (jt_fv.2.getD []) ++ sl ";")
          else
            .ok (jt_fv.1 ++ sl " " ++ name ++ sl ";")
    else
      .error ⟨.pseudoJava,
        sl "Variable declaration '" ++ statement ++ sl "' must use 'name as type' syntax."⟩
  else .ok (statement ++ sl ";")

/-- `StatementParser._convert_simple_assignment`. -/
def convert_simple_assignment (statement : Str) : Str :=
  if containsSub statement (sl "=") then
    match pySplitOnce statement (sl "=") with
    | none => statement ++ sl ";"  -- unreachable: '=' is present
    | some (l0, r0) =>
        let lhs := pyStrip l0
        let rhs0 := pyStrip r0
        let rhs :=
          if is_collection_operation rhs0 then
            convert_collection_operation_expression rhs0
          else rhs0
        lhs ++ sl " = " ++ rhs ++ sl ";"
  else statement ++ sl ";"

/-- `StatementParser.convert_statement_to_java`. -/
def convert_statement_to_java (statement0 : Str) : Except PJError Str :=
  let statement := pyStrip statement0
  if startsWithS statement (sl "print f\x22") then .ok (convert_fstring_print statement)
  else if startsWithS statement (sl "print ") then .ok (convert_simple_print statement)
  else if is_variable_declaration statement then convert_variable_declaration statement
  else if is_collection_operation statement then .ok (convert_collection_operation statement)
  else if containsSub statement (sl "=") &&
      !comparisonOps.any (fun op => containsSub statement op) then
    .ok (convert_simple_assignment statement)
  else if startsWithS statement (sl "if ") then .ok (convert_if_statement statement)
  else if startsWithS statement (sl "elif ") then .ok (convert_elif_statement statement)
  else if statement = sl "else:" then .ok (sl "else \x7b")
  else if startsWithS statement (sl "for ") then .ok (convert_for_loop statement)
  else if startsWithS statement (sl "while ") then .ok (convert_while_loop statement)
  else if startsWithS statement (sl "switch ") then .ok (convert_switch_statement statement)
  else if startsWithS statement (sl "return ") then .ok (statement ++ sl ";")
  else if !endsWithS statement (sl ";") && !endsWithS statement (sl "\x7b") &&
      !endsWithS statement (sl "\x7d") then
    .ok (statement ++ sl ";")
  else .ok statement

/- ----------------------------------------------------------------- -/
/- modules/parsers/statement_parser.py: parse_method_body. -/

/-- `StatementParser._get_indentation`. -/
def get_indentation (line : Str) : Nat := line.length - (pyLStrip line).length

/-- `StatementParser._is_section_header` (with the default SynonymConfig). -/
def is_section_header (stripped_line : Str) (current_indent : Nat) : Bool :=
  if stripped_line = sl "main" && current_indent = 4 then true
  else if !endsWithS stripped_line (sl ":") || current_indent ≠ 4 then false
  else
    let section_name := pyStrip stripped_line.dropLast
    let known_sections :=
      [sl "instance vars", sl "constructor", sl "instance methods",
       sl "getters setters", sl "main"] ++
      (template_synonyms.flatMap (fun syn => [syn ++ sl " vars", syn ++ sl " methods"])) ++
      abstract_methods_synonyms
    listHas known_sections section_name

/-- `StatementParser._is_template_line`:
`re.match(f'^\x7bsynonym\x7d\\s+(\\w+)', stripped_line, re.IGNORECASE)` for any
template synonym. -/
def is_template_line (stripped_line : Str) : Bool :=
  template_synonyms.any (fun syn =>
    (reMatch true [.lit syn, reWs1, reWordG] stripped_line).isSome)

/-- The inner `while indent_stack and current_indent <= indent_stack[-1]`
loop: emits one `\x7d` line per pop; `brace_stack` (whose entries carry no
information) is kept as a count and popped when non-empty. -/
def popIndent (current_indent : Nat) :
    List Nat → Nat → List Str × List Nat × Nat
  | [], braces => ([], [], braces)
  | top :: rest, braces =>
      if current_indent ≤ top then
        let r := popIndent current_indent rest (braces - 1)
        (sl "\x7d" :: r.1, r.2.1, r.2.2)
      else ([], top :: rest, braces)

/-- Splicing a trailing `//` or `#` comment onto a converted statement
(the two identical blocks of the source). -/
def spliceComment (java_line comment_part : Str) : Str :=
  if comment_part.isEmpty then java_line
  else if endsWithS java_line (sl ";") then
    java_line.dropLast ++ sl "; // " ++ comment_part
  else if endsWithS java_line (sl "\x7b") then
    java_line ++ sl " // " ++ comment_part
  else java_line ++ sl " // " ++ comment_part

/-- The loop of `StatementParser.parse_method_body`, one call per line;
returns the emitted body and the number of lines consumed. -/
def pmbLoop : List Str → Option Nat → List Nat → Nat → Bool →
    Except PJError (List Str × Nat)
  | [], _, _, braces, _ =>
      .ok (List.replicate braces (sl "\x7d"), 0)
  | line :: rest, expected, istk, braces, inComment => do
      let stripped_line := pyStrip line
      if containsSub stripped_line (sl "\x22\x22\x22") then
        if !inComment then
          if startsWithS stripped_line (sl "\x22\x22\x22") &&
              endsWithS stripped_line (sl "\x22\x22\x22") &&
              stripped_line.length > 6 then
            let comment_content := pyStrip (stripped_line.dropLast.dropLast.dropLast.drop 3)
            let r ← pmbLoop rest expected istk braces false
            .ok ((sl "/* " ++ comment_content ++ sl " */") :: r.1, r.2 + 1)
          else if startsWithS stripped_line (sl "\x22\x22\x22") then
            let comment_content := pyStrip (stripped_line.drop 3)
            let emitted :=
              if !comment_content.isEmpty then [sl "/* " ++ comment_content] else [sl "/*"]
            let r ← pmbLoop rest expected istk braces true
            .ok (emitted ++ r.1, r.2 + 1)
          else
            match pySplitOnce stripped_line (sl "\x22\x22\x22") with
            | none =>  -- unreachable: '\x22\x22\x22' is present
                let r ← pmbLoop rest expected istk braces inComment
                .ok (r.1, r.2 + 1)
            | some (code_part, comment_part) => do
                let emitted1 ←
                  if !(pyStrip code_part).isEmpty then do
                    let java_line ← convert_statement_to_java (pyStrip code_part)
                    pure [java_line]
                  else pure []
                let emitted2 :=
                  if !(pyStrip comment_part).isEmpty then
                    [sl "/* " ++ pyStrip comment_part]
                  else [sl "/*"]
                let r ← pmbLoop rest expected istk braces true
                .ok (emitted1 ++ emitted2 ++ r.1, r.2 + 1)
        else
          if endsWithS stripped_line (sl "\x22\x22\x22") then
            let comment_content := pyStrip (stripped_line.dropLast.dropLast.dropLast)
            let emitted :=
              if !comment_content.isEmpty then [sl "   " ++ comment_content ++ sl " */"]
              else [sl "*/"]
            let r ← pmbLoop rest expected istk braces false
            .ok (emitted ++ r.1, r.2 + 1)
          else
            match pySplitOnce stripped_line (sl "\x22\x22\x22") with
            | none =>  -- unreachable
                let r ← pmbLoop rest expected istk braces inComment
                .ok (r.1, r.2 + 1)
            | some (comment_part, code_part) => do
                let emitted1 :=
                  if !(pyStrip comment_part).isEmpty then
                    [sl "   " ++ pyStrip comment_part ++ sl " */"]
                  else [sl "*/"]
                let emitted2 ←
                  if !(pyStrip code_part).isEmpty then do
                    let java_line ← convert_statement_to_java (pyStrip code_part)
                    pure [java_line]
                  else pure []
                let r ← pmbLoop rest expected istk braces false
                .ok (emitted1 ++ emitted2 ++ r.1, r.2 + 1)
      else if inComment then
        let emitted := if !stripped_line.isEmpty then [sl "   " ++ stripped_line] else [[]]
        let r ← pmbLoop rest expected istk braces true
        .ok (emitted ++ r.1, r.2 + 1)
      else if stripped_line.isEmpty then
        let r ← pmbLoop rest expected istk braces false
        .ok ([] :: r.1, r.2 + 1)
      else if startsWithS stripped_line (sl "//") then
        let r ← pmbLoop rest expected istk braces false
        .ok (stripped_line :: r.1, r.2 + 1)
      else if startsWithS stripped_line (sl "#") then
        let r ← pmbLoop rest expected istk braces false
        .ok ((sl "// " ++ pyStrip (stripped_line.drop 1)) :: r.1, r.2 + 1)
      else
        let current_indent := get_indentation line
        if is_section_header stripped_line current_indent then
          .ok (List.replicate braces (sl "\x7d"), 0)
        else if current_indent = 0 &&
            (is_template_line stripped_line || stripped_line = sl "main") then
          .ok (List.replicate braces (sl "\x7d"), 0)
        else
          let expected_indent := expected.getD current_indent
          if current_indent < expected_indent then
            .ok (List.replicate braces (sl "\x7d"), 0)
          else
            let popped := popIndent current_indent istk braces
            let istk1 := popped.2.1
            let braces1 := popped.2.2
            let java_line ←
              if containsSub stripped_line (sl "//") then
                match pySplitOnce stripped_line (sl "//") with
                | none => convert_statement_to_java stripped_line  -- unreachable
                | some (cp0, cm0) =>
                    let code_part := pyStrip cp0
                    let comment_part := pyStrip cm0
                    if !code_part.isEmpty then do
                      let jl ← convert_statement_to_java code_part
                      pure (spliceComment jl comment_part)
                    else pure (sl "// " ++ comment_part)
              else if containsSub stripped_line (sl "#") then
                match pySplitOnce stripped_line (sl "#") with
                | none => convert_statement_to_java stripped_line  -- unreachable
                | some (cp0, cm0) =>
                    let code_part := pyStrip cp0
                    let comment_part := pyStrip cm0
                    if !code_part.isEmpty then do
                      let jl ← convert_statement_to_java code_part
                      pure (spliceComment jl comment_part)
                    else pure (sl "// " ++ comment_part)
              else convert_statement_to_java stripped_line
            let pushes := endsWithS java_line (sl "\x7b")
            let istk2 := if pushes then current_indent :: istk1 else istk1
            let braces2 := if pushes then braces1 + 1 else braces1
            let r ← pmbLoop rest (some expected_indent) istk2 braces2 false
            .ok (popped.1 ++ java_line :: r.1, r.2 + 1)

/-- `StatementParser.parse_method_body`: returns the converted body lines
and the index at which parsing stopped. -/
def parse_method_body (lines : List Str) (start_idx : Nat) :
    Except PJError (List Str × Nat) := do
  let r ← pmbLoop (lines.drop start_idx) none [] 0 false
  .ok (r.1, start_idx + r.2)

/-- Count occurrences of a character in every emitted line. -/
def braceCount (c : Char) (body : List Str) : Nat :=
  (body.map (fun l => (l.filter (fun x => x = c)).length)).sum

/- ----------------------------------------------------------------- -/
/- modules/parsers/method_parser.py -/

/-- `MethodParser._infer_type_from_name`. -/
def infer_type_from_name (param_name : Str) : Str :=
  let param_lower := pyLower param_name
  if listHas [sl "a", sl "b", sl "x", sl "y", sl "z", sl "n", sl "m"] param_name then
    sl "double"
  else if listHas [sl "base", sl "exponent", sl "power"] param_lower then
    (if param_lower ≠ sl "exponent" then sl "double" else sl "int")
  else if [sl "num", sl "number", sl "value", sl "result"].any
      (fun w => containsSub param_lower w) then sl "double"
  else if [sl "count", sl "size", sl "index", sl "length"].any
      (fun w => containsSub param_lower w) then sl "int"
  else if [sl "name", sl "text", sl "message", sl "title"].any
      (fun w => containsSub param_lower w) then sl "String"
  else if [sl "flag", sl "enabled", sl "active", sl "valid"].any
      (fun w => containsSub param_lower w) then sl "boolean"
  else sl "String"

/-- The plural/singular heuristic pass of
`MethodParser._lookup_or_infer_parameter_type` over the declared variables. -/
def pluralLookup (param_name : Str) : List Variable → Option Str
  | [] => none
  | var :: rest =>
      let var_name_lower := pyLower var.name
      let param_name_lower := pyLower param_name
      if startsWithS var.type_ (sl "ArrayList<") then
        let element_type := (var.type_.drop 10).dropLast
        if (var_name_lower = sl "grades" && param_name_lower = sl "grade") ||
           (var_name_lower = sl "courses" && param_name_lower = sl "course") ||
           (var_name_lower = sl "scores" && param_name_lower = sl "score") ||
           (var_name_lower = sl "names" && param_name_lower = sl "name") ||
           (var_name_lower = sl "items" && param_name_lower = sl "item") ||
           (var_name_lower = sl "values" && param_name_lower = sl "value") ||
           (endsWithS var_name_lower (sl "s") && var_name_lower.dropLast = param_name_lower) then
          some element_type
        else pluralLookup param_name rest
      else pluralLookup param_name rest

def exactVarLookup (param_name : Str) : List Variable → Option Str
  | [] => none
  | var :: rest =>
      if var.name = param_name then some var.type_ else exactVarLookup param_name rest

/-- `MethodParser._lookup_or_infer_parameter_type`. -/
def lookup_or_infer_parameter_type (param_name : Str) (template : Template) :
    Except PJError Str :=
  match exactVarLookup param_name (template.instance_vars ++ template.template_vars) with
  | some t => .ok t
  | none =>
      match pluralLookup param_name (template.instance_vars ++ template.template_vars) with
      | some t => .ok t
      | none =>
          if template.instance_vars.length = 0 && template.template_vars.length = 0 then
            .ok (infer_type_from_name param_name)
          else
            .error ⟨.pseudoJava,
              sl "Parameter '" ++ param_name ++ sl "' type cannot be determined. " ++
              sl "Either declare '" ++ param_name ++ sl "' as a variable in the template, " ++
              sl "or use explicit type syntax: 'type " ++ param_name ++ sl "' (e.g., 'string " ++
              param_name ++ sl "')"⟩

/-- One parameter of `MethodParser._parse_method_parameters`. -/
def oneParamExplicit (param0 : Str) : Except PJError (Str × Str) :=
  let param := pyStrip param0
  if containsSub param (sl " ") then
    let parts := pySplitWs param
    if parts.length ≥ 2 then
      let type_ := parts.getD 0 []
      let name := joinSep (sl " ") (parts.drop 1)
      .ok (pyStrip name, map_type (pyStrip type_))
    else
      .error ⟨.pseudoJava,
        sl "Parameter '" ++ param ++ sl "' requires explicit type. Use 'type name' syntax."⟩
  else
    .error ⟨.pseudoJava,
      sl "Parameter '" ++ param ++ sl "' requires explicit type. Use 'type name' syntax (e.g., 'string " ++
      param ++ sl "')."⟩

def mapExcept {α β : Type} (f : α → Except PJError β) : List α → Except PJError (List β)
  | [] => .ok []
  | a :: rest => do
      let b ← f a
      let bs ← mapExcept f rest
      .ok (b :: bs)

/-- `MethodParser._parse_method_parameters` (no `Template` context). -/
def parse_method_parameters (params_str : Str) : Except PJError (List (Str × Str)) :=
  if (pyStrip params_str).isEmpty then .ok []
  else mapExcept oneParamExplicit (pySplit params_str (sl ","))

/-- One parameter of `MethodParser._parse_parameters_from_declared_types`. -/
def oneParamDeclared (template : Template) (param0 : Str) : Except PJError (Str × Str) :=
  let param := pyStrip param0
  if containsSub param (sl " ") then
    match pySplitOnce param (sl " ") with
    | none => .error ⟨.pseudoJava, sl "unreachable"⟩
    | some (type_, name) => .ok (pyStrip name, map_type (pyStrip type_))
  else do
    let t ← lookup_or_infer_parameter_type param template
    .ok (param, t)

/-- `MethodParser._parse_parameters_from_declared_types`. -/
def parse_parameters_from_declared_types (params_str : Str) (template : Template) :
    Except PJError (List (Str × Str)) :=
  if (pyStrip params_str).isEmpty then .ok []
  else mapExcept (oneParamDeclared template) (pySplit params_str (sl ","))

/-- `MethodParser._parse_regular_method` (body parsing delegated to
`parse_method_body`, as the parser engine wires it). -/
def parse_regular_method (lines : List Str) (start_idx : Nat) (line : Str)
    (access : Access) (is_static : Bool) (template : Option Template) :
    Except PJError (Option Method × Nat) := do
  let mp_rt : Str × Str :=
    if containsSub line (sl " returns ") then
      match pySplitOnce line (sl " returns ") with
      | some (m, r) => (m, pyStrip r)
      | none => (line, sl "void")
    else if containsSub line (sl " -> ") then
      match pySplitOnce line (sl " -> ") with
      | some (m, r) => (m, pyStrip r)
      | none => (line, sl "void")
    else (line, sl "void")
  -- re.match(r'(\w+)\s*\((.*?)\)', method_part)
  match reMatch false [reWordG, reWs0, .lit (sl "("), reStarLazyG, .lit (sl ")")] mp_rt.1 with
  | some [method_name, params_str] => do
      let parameters ←
        match template with
        | some t => parse_parameters_from_declared_types params_str t
        | none => parse_method_parameters params_str
      let body_end ← parse_method_body lines (start_idx + 1)
      .ok (some ⟨method_name, parameters, map_type mp_rt.2, access, body_end.1,
        is_static, false⟩, body_end.2)
  | _ => .ok (none, start_idx + 1)

/-- `MethodParser.parse_standalone_method`. -/
def parse_standalone_method (lines : List Str) (start_idx : Nat) :
    Except PJError (Option Method × Nat) :=
  let line := pyStrip (lines.getD start_idx [])
  if startsWithS line (sl "method ") then
    parse_regular_method lines start_idx (pyStrip (line.drop 7)) .publicA true none
  else .ok (none, start_idx + 1)

/- ----------------------------------------------------------------- -/
/- modules/generators/java_generator.py -/

/-- The generator's `access_modifiers` table. -/
def accessStr : Access → Str
  | .publicA => sl "public"
  | .privateA => sl "private"
  | .protectedA => sl "protected"
  | .packagePrivateA => []

/-- `JavaCodeGenerator._generate_imports`. -/
def generate_imports : List Str := [sl "import java.util.*;", sl "import java.util.Scanner;"]

/-- `JavaCodeGenerator._generate_variables`. -/
def generate_variables (vars : List Variable) (is_static : Bool) : List Str :=
  vars.map (fun var =>
    let access_str := accessStr var.access
    let static_keyword := if is_static then sl "static " else []
    let initial :=
      if optTruthy var.initial_value then sl " = " ++ var.initial_value.getD [] else []
    if !access_str.isEmpty then
      sl "    " ++ access_str ++ sl " " ++ static_keyword ++ var.type_ ++ sl " " ++
        var.name ++ initial ++ sl ";"
    else
      sl "    " ++ static_keyword ++ var.type_ ++ sl " " ++ var.name ++ initial ++ sl ";")

/-- `JavaCodeGenerator._generate_method`. -/
def generate_method (method : Method) (class_name : Option Str) : List Str :=
  let access_str := accessStr method.access
  let static_keyword := if method.is_static then sl "static " else []
  let params :=
    joinSep (sl ", ") (method.parameters.map (fun p => p.2 ++ sl " " ++ p.1))
  let signature :=
    if method.is_constructor then
      let cname := if optTruthy class_name then class_name.getD [] else method.name
      if !access_str.isEmpty then access_str ++ sl " " ++ cname ++ sl "(" ++ params ++ sl ")"
      else cname ++ sl "(" ++ params ++ sl ")"
    else
      -- `method.return_type if method.return_type != "void" else "void"` (identity)
      let return_type := method.return_type
      if !access_str.isEmpty then
        access_str ++ sl " " ++ static_keyword ++ return_type ++ sl " " ++ method.name ++
          sl "(" ++ params ++ sl ")"
      else
        static_keyword ++ return_type ++ sl " " ++ method.name ++ sl "(" ++ params ++ sl ")"
  (sl "    " ++ signature ++ sl " \x7b") ::
    method.body.map (fun l => sl "        " ++ l) ++ [sl "    \x7d"]

/-- `JavaCodeGenerator._generate_abstract_method`. -/
def generate_abstract_method (method : Method) : List Str :=
  let access_str := accessStr method.access
  let params :=
    joinSep (sl ", ") (method.parameters.map (fun p => p.2 ++ sl " " ++ p.1))
  let return_type := method.return_type
  let signature :=
    if !access_str.isEmpty then
      access_str ++ sl " abstract " ++ return_type ++ sl " " ++ method.name ++
        sl "(" ++ params ++ sl ");"
    else
      sl "abstract " ++ return_type ++ sl " " ++ method.name ++ sl "(" ++ params ++ sl ");"
  [sl "    " ++ signature]

/-- `JavaCodeGenerator._generate_getter_setter`. -/
def generate_getter_setter (var : Variable) (access : Access) : List Str :=
  let access_str := accessStr access
  let getter_name := sl "get" ++ pyCapitalize var.name
  let getter_header :=
    if !access_str.isEmpty then
      sl "    " ++ access_str ++ sl " " ++ var.type_ ++ sl " " ++ getter_name ++ sl "() \x7b"
    else sl "    " ++ var.type_ ++ sl " " ++ getter_name ++ sl "() \x7b"
  let setter_name := sl "set" ++ pyCapitalize var.name
  let setter_header :=
    if !access_str.isEmpty then
      sl "    " ++ access_str ++ sl " void " ++ setter_name ++ sl "(" ++ var.type_ ++ sl " " ++
        var.name ++ sl ") \x7b"
    else
      sl "    void " ++ setter_name ++ sl "(" ++ var.type_ ++ sl " " ++ var.name ++ sl ") \x7b"
  [getter_header,
   sl "        return " ++ var.name ++ sl ";",
   sl "    \x7d",
   [],
   setter_header,
   sl "        this." ++ var.name ++ sl " = " ++ var.name ++ sl ";",
   sl "    \x7d"]

/-- `JavaCodeGenerator._generate_main_method`. -/
def generate_main_method (main_body : List Str) : List Str :=
  sl "    public static void main(String[] args) \x7b" ::
    main_body.map (fun l => sl "        " ++ l) ++ [sl "    \x7d"]

/-- `JavaCodeGenerator._find_variable`. -/
def find_variable (template : Template) (var_name : Str) : Option Variable :=
  (template.instance_vars ++ template.template_vars).find? (fun v => v.name = var_name)

/-- `JavaCodeGenerator._is_utility_template`. -/
def is_utility_template (t : Template) : Bool :=
  t.instance_vars.length = 0 && t.constructors.length = 0 &&
  t.getters_setters.length = 0 && t.instance_methods.length = 0 &&
  t.template_methods.length > 0

/-- `JavaCodeGenerator._build_class_declaration`. -/
def build_class_declaration (t : Template) : Str :=
  let parts0 : List Str :=
    if t.is_interface then [sl "interface"]
    else if t.is_abstract then [sl "abstract class"]
    else [sl "class"]
  let parts1 := parts0 ++ [t.name]
  let parts2 :=
    match t.extendsT with
    | some e => parts1 ++ [sl "extends", e]
    | none => parts1
  let parts3 :=
    if !t.implements.isEmpty then parts2 ++ [sl "implements", joinSep (sl ", ") t.implements]
    else parts2
  joinSep (sl " ") parts3 ++ sl " \x7b"

/-- The getters/setters pass shared by the single-class and template-class
builders: found variables emit their accessor pair, unknown names are
silently skipped. -/
def gettersSettersLines (t : Template) : List Str :=
  t.getters_setters.flatMap (fun gs =>
    match find_variable t gs.1 with
    | some var => generate_getter_setter var gs.2 ++ [[]]
    | none => [])

/-- `JavaCodeGenerator._generate_single_class_with_main`. -/
def generate_single_class_with_main (pd : ParsedProgram) : List Str :=
  let t := pd.templates.getD 0 ⟨[], [], [], [], [], [], [], false, false, none, [], []⟩
  (sl "public class " ++ t.name ++ sl " \x7b") ::
  (if !t.template_vars.isEmpty then generate_variables t.template_vars true ++ [[]] else []) ++
  (if !t.instance_vars.isEmpty then generate_variables t.instance_vars false ++ [[]] else []) ++
  (t.constructors.flatMap (fun c => generate_method c (some t.name) ++ [[]])) ++
  (t.template_methods.flatMap (fun m => generate_method m none ++ [[]])) ++
  (t.instance_methods.flatMap (fun m => generate_method m none ++ [[]])) ++
  gettersSettersLines t ++
  (pd.standalone_methods.flatMap (fun m => generate_method m none ++ [[]])) ++
  generate_main_method pd.main_method_body ++
  [sl "\x7d"]

/-- `JavaCodeGenerator._generate_single_template_class`. -/
def generate_single_template_class (t : Template) : List Str :=
  build_class_declaration t ::
  (if !t.is_interface then
    (if !t.template_vars.isEmpty then generate_variables t.template_vars true ++ [[]] else []) ++
    (if !t.instance_vars.isEmpty then generate_variables t.instance_vars false ++ [[]] else []) ++
    (t.constructors.flatMap (fun c => generate_method c (some t.name) ++ [[]]))
   else []) ++
  (t.template_methods.flatMap (fun m => generate_method m none ++ [[]])) ++
  (t.instance_methods.flatMap (fun m => generate_method m none ++ [[]])) ++
  (t.abstract_methods.flatMap (fun m => generate_abstract_method m ++ [[]])) ++
  (if !t.is_interface then gettersSettersLines t else []) ++
  [sl "\x7d"]

/-- `JavaCodeGenerator._generate_main_class_with_separate_templates`. -/
def generate_main_class_with_separate_templates (pd : ParsedProgram) : List Str :=
  let is_merged := fun (t : Template) => is_utility_template t && t.name = pd.program_name
  let merged_methods :=
    (pd.templates.filter is_merged).flatMap (fun t => t.template_methods)
  let regular_templates := pd.templates.filter (fun t => !is_merged t)
  let main_class_methods := merged_methods ++ pd.standalone_methods
  (sl "public class " ++ pd.program_name ++ sl " \x7b") ::
  (main_class_methods.flatMap (fun m => generate_method m none ++ [[]])) ++
  generate_main_method pd.main_method_body ++
  [sl "\x7d", []] ++
  (regular_templates.flatMap (fun t => generate_single_template_class t ++ [[]]))

/-- `JavaCodeGenerator._generate_standalone_methods_class`. -/
def generate_standalone_methods_class (pd : ParsedProgram) : List Str :=
  (sl "public class " ++ pd.program_name ++ sl " \x7b") ::
  (pd.standalone_methods.flatMap (fun m => generate_method m none ++ [[]])) ++
  [sl "\x7d"]

/-- `JavaCodeGenerator._should_merge_into_single_class`. -/
def should_merge_into_single_class (pd : ParsedProgram) : Bool :=
  if pd.templates.length = 1 then
    match pd.templates with
    | [t] =>
        let has_main_in_template := t.template_methods.any (fun m => m.name = sl "main")
        t.name = pd.program_name && (!pd.main_method_body.isEmpty || has_main_in_template)
    | _ => false
  else false

/-- `JavaCodeGenerator.generate`. -/
def generate (pd : ParsedProgram) : Str :=
  let strategy :=
    if should_merge_into_single_class pd then generate_single_class_with_main pd
    else if !pd.main_method_body.isEmpty then generate_main_class_with_separate_templates pd
    else if pd.templates.length = 1 then
      generate_single_template_class (pd.templates.getD 0
        ⟨[], [], [], [], [], [], [], false, false, none, [], []⟩)
    else generate_standalone_methods_class pd
  joinSep (sl "\n") (generate_imports ++ [[]] ++ strategy)

/- ----------------------------------------------------------------- -/
/- javax_parser_3062025_111pm.py (the monolithic PseudoJavaParser):
   _convert_statement_to_java and its helpers.  `_map_type` uses the same
   table as the modular TypeMapping, so `map_type` is reused. -/

/-- One object-creation pattern with arguments:
`re.match(verb + r'\s+(\w+)\s+as\s+(\w+)\s+with\s+(.*)', statement)`. -/
def creationArgsPattern (verb : Str) : List RElem :=
  [.lit verb, reWs1, reWordG, reWs1, .lit (sl "as"), reWs1, reWordG, reWs1,
   .lit (sl "with"), reWs1, reStarG]

/-- One object-creation pattern without arguments:
`re.match(verb + r'\s+(\w+)\s+as\s+(\w+)\s+with\s*$', statement)`. -/
def creationNoArgsPattern (verb : Str) : List RElem :=
  [.lit verb, reWs1, reWordG, reWs1, .lit (sl "as"), reWs1, reWordG, reWs1,
   .lit (sl "with"), reWs0, .eol]

/-- The first `for verb in self.object_creation_verbs` loop. -/
def matchCreationArgs (statement : Str) : Option Str :=
  firstSome (object_creation_verbs.map (fun verb =>
    match reMatch false (creationArgsPattern verb) statement with
    | some [var_name, class_name, args] =>
        some (class_name ++ sl " " ++ var_name ++ sl " = new " ++ class_name ++
          sl "(" ++ args ++ sl ");")
    | _ => none))

/-- The second `for verb in self.object_creation_verbs` loop. -/
def matchCreationNoArgs (statement : Str) : Option Str :=
  firstSome (object_creation_verbs.map (fun verb =>
    match reMatch false (creationNoArgsPattern verb) statement with
    | some [var_name, class_name] =>
        some (class_name ++ sl " " ++ var_name ++ sl " = new " ++ class_name ++ sl "();")
    | _ => none))

/-- `PseudoJavaParser._convert_arraylist_assignment`. -/
def mono_convert_arraylist_assignment (statement : Str) : Str :=
  match pySplitOnce statement (sl "=") with
  | none => statement ++ sl ";"  -- len(parts) == 1: falls to the final return
  | some (l0, r0) =>
      let left_side := pyStrip l0
      let right_side := pyStrip r0
      if right_side = sl "arraylist" then
        let var_name :=
          if containsSub left_side (sl ".") then
            (pySplit left_side (sl ".")).getLastD []
          else left_side
        let vl := pyLower var_name
        if containsSub vl (sl "grade") then
          left_side ++ sl " = new ArrayList<Double>();"
        else if containsSub vl (sl "course") then
          left_side ++ sl " = new ArrayList<String>();"
        else if containsSub vl (sl "name") || containsSub vl (sl "title") then
          left_side ++ sl " = new ArrayList<String>();"
        else if containsSub vl (sl "score") || containsSub vl (sl "point") then
          left_side ++ sl " = new ArrayList<Double>();"
        else if containsSub vl (sl "id") || containsSub vl (sl "num") then
          left_side ++ sl " = new ArrayList<Integer>();"
        else left_side ++ sl " = new ArrayList<String>();"
      else statement ++ sl ";"

/-- The interpolation loop body shared (verbatim, duplicated in the source)
by the monolithic `_convert_simple_print` and `_convert_fstring_print`:
no collection-operation case, and no quote escaping. -/
def monoInterpStep (fa : Str × List Str) (var : Str) : Str × List Str :=
  let format_str := fa.1
  let args := fa.2
  let wrapped := sl "\x7b" ++ var ++ sl "\x7d"
  if containsSub var (sl ":") then
    match pySplitOnce var (sl ":") with
    | none => (format_str, args)  -- unreachable: ':' is present
    | some (vn, fs) =>
        let var_name := pyStrip vn
        let format_spec := pyStrip fs
        let format_placeholder :=
          if endsWithS format_spec (sl "f") then
            if containsSub format_spec (sl ".") then
              let precision := ((pySplit format_spec (sl ".")).getD 1 []).dropLast
              sl "%." ++ precision ++ sl "f"
            else sl "%f"
          else if format_spec = sl "d" then sl "%d"
          else sl "%s"
        (replaceAll format_str wrapped format_placeholder, args ++ [var_name])
  else
    if [sl "+", sl "-", sl "*", sl "/", sl ".", sl "("].any
        (fun op => containsSub var op) then
      (replaceAll format_str wrapped (sl "%s"), args ++ [sl "(" ++ var ++ sl ")"])
    else
      (replaceAll format_str wrapped (sl "%s"), args ++ [var])

def mono_interp_content (content : Str) : Str :=
  let vars0 := findBraceSegs content
  let fa := vars0.foldl monoInterpStep (content, [])
  if !fa.2.isEmpty then
    sl "System.out.println(String.format(\x22" ++ fa.1 ++ sl "\x22, " ++
      joinSep (sl ", ") fa.2 ++ sl "));"
  else
    sl "System.out.println(\x22" ++ fa.1 ++ sl "\x22);"

/-- Monolithic `_convert_fstring_print`. -/
def mono_convert_fstring_print (statement : Str) : Str :=
  match reMatch false [.lit (sl "print f\x22"), .cls (fun c => c ≠ '\n') false true true, .lit (sl "\x22")] statement with
  | some [content] => mono_interp_content content
  | _ => statement ++ sl ";"

/-- Monolithic `_convert_variable_declaration` (raises `ValueError`; the
source can also fall off the end and return Python `None`, modelled as
`.ok none`). -/
def mono_convert_variable_declaration (statement : Str) : Except PJError (Option Str) :=
  if startsWithS statement (sl "var ") then
    .error ⟨.valueErr,
      sl "Variable declaration '" ++ statement ++
      sl "' must use explicit type syntax. Use 'name as type' instead of 'var name = value'"⟩
  else if containsSub statement (sl " as ") then
    let vp_val : Str × Option Str :=
      if containsSub statement (sl " = ") then
        match pySplitOnce statement (sl " = ") with
        | some (v, w) => (pyStrip v, some (pyStrip w))
        | none => (pyStrip statement, none)
      else (pyStrip statement, none)
    let var_part := vp_val.1
    let value0 := vp_val.2
    if containsSub var_part (sl " as ") then
      match pySplitOnce var_part (sl " as ") with
      | none => .ok none  -- unreachable: " as " is present
      | some (n0, t0) =>
          let name := pyStrip n0
          let type_ := pyStrip t0
          let jt_val : Str × Option Str :=
            if containsSub type_ (sl "/") then
              match pySplitOnce type_ (sl "/") with
              | none => (map_type type_, value0)  -- unreachable
              | some (c0, e0) =>
                  let container_type := pyLower (pyStrip c0)
                  let element_type := pyStrip e0
                  let mapped_container := map_type container_type
                  let me0 := map_type element_type
                  -- the inline wrapper chain compares the mapped element exactly
                  let mapped_element :=
                    if me0 = sl "int" then sl "Integer"
                    else if me0 = sl "double" then sl "Double"
                    else if me0 = sl "float" then sl "Float"
                    else if me0 = sl "boolean" then sl "Boolean"
                    else if me0 = sl "byte" then sl "Byte"
                    else if me0 = sl "short" then sl "Short"
                    else if me0 = sl "long" then sl "Long"
                    else if me0 = sl "char" then sl "Character"
                    else me0
                  if container_type = sl "arraylist" || container_type = sl "list" then
                    (sl "ArrayList<" ++ mapped_element ++ sl ">",
                     if !optTruthy value0 then
                       some (sl "new ArrayList<" ++ mapped_element ++ sl ">()") else value0)
                  else if container_type = sl "map" || container_type = sl "hashmap" then
                    (sl "HashMap<String, " ++ mapped_element ++ sl ">",
                     if !optTruthy value0 then
                       some (sl "new HashMap<String, " ++ mapped_element ++ sl ">()") else value0)
                  else if container_type = sl "set" || container_type = sl "hashset" then
                    (sl "HashSet<" ++ mapped_element ++ sl ">",
                     if !optTruthy value0 then
                       some (sl "new HashSet<" ++ mapped_element ++ sl ">()") else value0)
                  else (mapped_container ++ sl "<" ++ mapped_element ++ sl ">", value0)
            else (map_type type_, value0)
          let java_type := jt_val.1
          let value1 := jt_val.2
          if optTruthy value1 then
            let v := value1.getD []
            let v2 :=
              if v = sl "arraylist" && startsWithS java_type (sl "ArrayList") then
                sl "new ArrayList<" ++ (java_type.drop 10).dropLast ++ sl ">()"
              else v
            .ok (some (java_type ++ sl " " ++ name ++ sl " = " ++ v2 ++ sl ";"))
          else
            .ok (some (java_type ++ sl " " ++ name ++ sl ";"))
    else .ok none  -- the source falls off the `if` and returns Python None
  else
    if containsSub statement (sl "=") &&
        !comparisonOps.any (fun op => containsSub statement op) then
      .error ⟨.valueErr,
        sl "Variable declaration '" ++ statement ++
        sl "' must use explicit type syntax. Use 'name as type = value' instead of implicit typing"⟩
    else .ok (some (statement ++ sl ";"))

/-- Monolithic `_convert_for_loop` (no keys-of/values-of/each/all sugar). -/
def mono_convert_for_loop (statement : Str) : Str :=
  if containsSub statement (sl " in range(") then
    match reMatch false [.lit (sl "for"), reWs1, reWordG, reWs1, .lit (sl "in"), reWs1, .lit (sl "range("), reStarLazyG, .lit (sl "):")] statement with
    | some [v, re0] =>
        let range_expr := pyStrip re0
        if !containsSub range_expr (sl ",") then
          sl "for (int " ++ v ++ sl " = 0; " ++ v ++ sl " < " ++ range_expr ++ sl "; " ++ v ++ sl "++) \x7b"
        else
          let range_args := pySplit range_expr (sl ",")
          let start := pyStrip (range_args.getD 0 [])
          let stop := pyStrip (range_args.getD 1 [])
          sl "for (int " ++ v ++ sl " = " ++ start ++ sl "; " ++ v ++ sl " < " ++ stop ++ sl "; " ++ v ++ sl "++) \x7b"
    | _ => statement
  else if containsSub statement (sl " in ") then
    match reMatch false [.lit (sl "for"), reWs1, reWordG, reWs1, .lit (sl "in"), reWs1, .cls (fun c => c ≠ ':') true false true, .lit (sl ":")] statement with
    | some [v, coll0] =>
        sl "for (var " ++ v ++ sl " : " ++ pyStrip coll0 ++ sl ") \x7b"
    | _ => statement
  else statement

/-- Monolithic `_convert_statement_to_java`: the object-creation rules come
first; every later rule is reached only when they fail. -/
def mono_convert_statement_to_java (statement0 : Str) : Except PJError (Option Str) :=
  let statement := pyStrip statement0
  match matchCreationArgs statement with
  | some r => .ok (some r)
  | none =>
  match matchCreationNoArgs statement with
  | some r => .ok (some r)
  | none =>
  if containsSub statement (sl "=") && containsSub statement (sl "arraylist") &&
      !comparisonOps.any (fun op => containsSub statement op) then
    .ok (some (mono_convert_arraylist_assignment statement))
  else if startsWithS statement (sl "print f\x22") then
    .ok (some (mono_convert_fstring_print statement))
  else if startsWithS statement (sl "print ") then
    let content := pyStrip (statement.drop 6)
    if startsWithS content (sl "\x22") && endsWithS content (sl "\x22") then
      .ok (some (sl "System.out.println(" ++ content ++ sl ");"))
    else .ok (some (mono_interp_content content))
  else if containsSub statement (sl " as ") && containsSub statement (sl "=") &&
      !comparisonOps.any (fun op => containsSub statement op) then
    mono_convert_variable_declaration statement
  else if containsSub statement (sl "=") &&
      !comparisonOps.any (fun op => containsSub statement op) then
    .ok (some (statement ++ sl ";"))  -- monolithic _convert_simple_assignment
  else if startsWithS statement (sl "if ") then
    .ok (some (sl "if (" ++ convert_logical_operators (rstripColon (statement.drop 3)) ++ sl ") \x7b"))
  else if startsWithS statement (sl "elif ") then
    .ok (some (sl "\x7d else if (" ++ convert_logical_operators (rstripColon (statement.drop 5)) ++ sl ") \x7b"))
  else if statement = sl "else:" then .ok (some (sl "else \x7b"))
  else if startsWithS statement (sl "for ") then .ok (some (mono_convert_for_loop statement))
  else if startsWithS statement (sl "while ") then
    .ok (some (sl "while (" ++ convert_logical_operators (rstripColon (statement.drop 6)) ++ sl ") \x7b"))
  else if startsWithS statement (sl "switch ") then
    .ok (some (sl "switch (" ++ rstripColon (statement.drop 7) ++ sl ") \x7b"))
  else if startsWithS statement (sl "return ") then .ok (some (statement ++ sl ";"))
  else if !endsWithS statement (sl ";") && !endsWithS statement (sl "\x7b") &&
      !endsWithS statement (sl "\x7d") then
    .ok (some (statement ++ sl ";"))
  else .ok (some statement)

/- ----------------------------------------------------------------- -/
/- git_gui.py: GitGUI.parse_status_code.  The claims only concern
   two-character codes, so the code is taken as its two characters; the
   source's whole-string comparisons (`code == 'A '`) become comparisons
   with the corresponding pair. -/

def parse_status_code (c0 c1 : Char) : Str × Option Str :=
  if c0 = 'M' then (sl "Modified (Staged)", some (sl "staged"))
  else if c1 = 'M' then (sl "Modified", some (sl "modified"))
  else if c0 = 'A' && c1 = ' ' then (sl "Added (Staged)", some (sl "staged"))
  else if c0 = '?' && c1 = '?' then (sl "Untracked", some (sl "untracked"))
  else if c0 = 'D' then (sl "Deleted (Staged)", some (sl "staged"))
  else if c1 = 'D' then (sl "Deleted", some (sl "deleted"))
  else if c0 = 'R' && c1 = ' ' then (sl "Renamed (Staged)", some (sl "staged"))
  else if c1 = 'R' then (sl "Renamed", some (sl "modified"))
  else (sl "Status: " ++ [c0, c1], none)

/- ----------------------------------------------------------------- -/
/- modules/utils/file_handler.py -/

/-- POSIX `os.path.join(a, b)` for one component. -/
def osPathJoin (a b : Str) : Str :=
  if startsWithS b (sl "/") then b
  else if a.isEmpty then b
  else if endsWithS a (sl "/") then a ++ b
  else a ++ sl "/" ++ b

/-- `FileHandler.determine_output_file`. -/
def determine_output_file (input_file : Str) (program_name : Str)
    (output_file : Option Str) (output_dir : Option Str) : Str :=
  if optTruthy output_file then output_file.getD []
  else if optTruthy output_dir then
    osPathJoin (output_dir.getD []) (program_name ++ sl ".java")
  else program_name ++ sl ".java"

/- ----------------------------------------------------------------- -/
/- Specification-side definitions, used to compare the embedded code with
   the claims (refinement targets; these follow the words of the spec and
   the claims, not the source). -/

/-- Modelled from the spec: the status-code rule table of §6 as an ordered
list of patterns, first match wins. -/
inductive CodePat where
  | firstIs (c : Char)
  | secondIs (c : Char)
  | exact (a b : Char)

def patMatches : CodePat → Char → Char → Bool
  | .firstIs c, c0, _ => c0 = c
  | .secondIs c, _, c1 => c1 = c
  | .exact a b, c0, c1 => c0 = a && c1 = b

/-- The table of §6, in its stated order. -/
def statusRules : List (CodePat × Str × Option Str) :=
  [(.firstIs 'M', sl "Modified (Staged)", some (sl "staged")),
   (.secondIs 'M', sl "Modified", some (sl "modified")),
   (.exact 'A' ' ', sl "Added (Staged)", some (sl "staged")),
   (.exact '?' '?', sl "Untracked", some (sl "untracked")),
   (.firstIs 'D', sl "Deleted (Staged)", some (sl "staged")),
   (.secondIs 'D', sl "Deleted", some (sl "deleted")),
   (.exact 'R' ' ', sl "Renamed (Staged)", some (sl "staged")),
   (.secondIs 'R', sl "Renamed", some (sl "modified"))]

/-- First matching rule, else the fallback `Status: <code>` with no color. -/
def firstRuleMatch : List (CodePat × Str × Option Str) → Char → Char → Str × Option Str
  | [], c0, c1 => (sl "Status: " ++ [c0, c1], none)
  | (p, r) :: rest, c0, c1 =>
      if patMatches p c0 c1 then r else firstRuleMatch rest c0 c1

/-- Modelled from the claim (C3): the variable name with only its first
character upper-cased and every other character left unchanged. -/
def claimed_capitalize (s : Str) : Str :=
  match s with
  | [] => []
  | c :: rest => c.toUpper :: rest

/- Segment model of an interpolated print line (for C6): the line is an
interleaving of literal runs and `\x7b...\x7d` placeholders. -/

inductive PSeg where
  | litS (s : Str)
  | phS (p : Str)

def renderSegs : List PSeg → Str
  | [] => []
  | .litS s :: r => s ++ renderSegs r
  | .phS p :: r => '\x7b' :: (p ++ '\x7d' :: renderSegs r)

def phsOf : List PSeg → List Str
  | [] => []
  | .litS _ :: r => phsOf r
  | .phS p :: r => p :: phsOf r

/-- No brace characters in a string. -/
def braceFree (s : Str) : Bool :=
  s.all (fun c => c ≠ '\x7b' && c ≠ '\x7d')

/-- Well-formed segment lists: literals brace-free, placeholders brace-free
and non-empty. -/
def goodSegs : List PSeg → Bool
  | [] => true
  | .litS s :: r => braceFree s && goodSegs r
  | .phS p :: r => braceFree p && !p.isEmpty && goodSegs r

/-- The format specifier chosen for one placeholder, mirroring the claim:
`%.<precision>f` for a spec ending in `f` with a dot, `%f` for a bare
trailing `f`, `%d` for exactly `d`, `%s` otherwise (and `%s` for every
placeholder without `:`). -/
def specOf (p : Str) : Str :=
  if containsSub p (sl ":") then
    match pySplitOnce p (sl ":") with
    | none => sl "%s"  -- unreachable: ':' is present
    | some (_, fs) =>
        let format_spec := pyStrip fs
        if endsWithS format_spec (sl "f") then
          if containsSub format_spec (sl ".") then
            sl "%." ++ ((pySplit format_spec (sl ".")).getD 1 []).dropLast ++ sl "f"
          else sl "%f"
        else if format_spec = sl "d" then sl "%d"
        else sl "%s"
  else sl "%s"

/-- The argument passed for one placeholder, mirroring the claim: the
expression before `:` for a formatted placeholder; a parenthesized
collection-operation call; a parenthesized expression when an operator
character occurs; else the bare variable reference. -/
def argOf (p : Str) : Str :=
  if containsSub p (sl ":") then
    match pySplitOnce p (sl ":") with
    | none => p  -- unreachable: ':' is present
    | some (vn, _) => pyStrip vn
  else if is_collection_operation p then
    sl "(" ++ convert_collection_operation_expression p ++ sl ")"
  else if [sl "+", sl "-", sl "*", sl "/", sl ".", sl "("].any
      (fun op => containsSub p op) then
    sl "(" ++ p ++ sl ")"
  else p

/-- Replace each placeholder segment by its chosen `%`-specifier. -/
def segSpec : PSeg → PSeg
  | .litS s => .litS s
  | .phS p => .litS (specOf p)

/-- The escape of double quotes applied to the final format string. -/
def escapeQ (s : Str) : Str := replaceAll s (sl "\x22") (sl "\x5c\x22")

/-- The boxed element type of a collection shorthand: the mapped element,
replaced by its wrapper when primitive. -/
def boxedElem (elem : Str) : Str :=
  let m := map_type (pyStrip elem)
  if is_primitive_type m then get_wrapper_type m else m

/- ----------------------------------------------------------------- -/
/- Library lemmas. -/

theorem containsSub_append_right (x y pat : Str) (h : containsSub y pat = true) :
    containsSub (x ++ y) pat = true := by
  induction x with
  | nil => simpa
  | cons a xs ih =>
      simp only [List.cons_append, containsSub, Bool.or_eq_true]
      exact Or.inr ih

theorem splitOnce_at_first (c elem : Str) (sep0 : Char)
    (hc : containsSub c [sep0] = false) :
    splitOnceSub (c ++ sep0 :: elem) [sep0] = some (c, elem) := by
  induction c with
  | nil => simp [splitOnceSub, dropPfx]
  | cons a cs ih =>
      simp only [containsSub, Bool.or_eq_true, not_or, Bool.or_eq_false_iff] at hc
      obtain ⟨h1, h2⟩ := hc
      have ha : a ≠ sep0 := by
        intro he
        subst he
        simp [dropPfx] at h1
      simp only [List.cons_append, splitOnceSub, dropPfx, if_neg (Ne.symm ha),
        List.append_eq]
      rw [ih h2]

/- ----------------------------------------------------------------- -/
/- Claim theorems. -/

/-- Claim C1 (code bug): `parse_method_body` does NOT balance braces on an
if/elif body.  On the four-line body `if x: / a / elif y: / b`, the dedent
loop emits a closing `\x7d` for the `if` block and the converted `elif` line
`\x7d else if (y) \x7b` contributes a second one, so the returned lines hold
two opening braces but three closing braces. -/
theorem C1_elif_double_close :
    parse_method_body
        [sl "        if x:", sl "            a", sl "        elif y:", sl "            b"] 0 =
      .ok ([sl "if (x) \x7b", sl "a;", sl "\x7d", sl "\x7d else if (y) \x7b", sl "b;", sl "\x7d"], 4) ∧
    braceCount '\x7b'
        [sl "if (x) \x7b", sl "a;", sl "\x7d", sl "\x7d else if (y) \x7b", sl "b;", sl "\x7d"] = 2 ∧
    braceCount '\x7d'
        [sl "if (x) \x7b", sl "a;", sl "\x7d", sl "\x7d else if (y) \x7b", sl "b;", sl "\x7d"] = 3 := by
  refine ⟨by decide, by decide, by decide⟩

/-- Claim C8: for every two-character status code, `parse_status_code`
returns exactly the first matching rule of the spec's ordered table
(first-char `M`, second-char `M`, `A `, `??`, first-char `D`, second-char
`D`, `R `, second-char `R`, else `Status: <code>` uncolored); in
particular `MM` resolves to `Modified (Staged)` because the first-char-`M`
rule wins. -/
theorem C8_status_code_table (c0 c1 : Char) :
    parse_status_code c0 c1 = firstRuleMatch statusRules c0 c1 ∧
    parse_status_code 'M' 'M' = (sl "Modified (Staged)", some (sl "staged")) := by
  constructor
  · simp only [parse_status_code, firstRuleMatch, statusRules, patMatches,
      Bool.and_eq_true, decide_eq_true_eq]
  · decide

/-- Claim C9: `determine_output_file` resolves the output path with strict
precedence: an explicit output path wins; else a given output directory
joined with `<program_name>.java`; else `<program_name>.java` in the
current directory. -/
theorem C9_output_path_precedence (input_file program_name : Str)
    (out dir : Option Str) :
    (optTruthy out = true →
      determine_output_file input_file program_name out dir = out.getD []) ∧
    (optTruthy out = false → optTruthy dir = true →
      determine_output_file input_file program_name out dir =
        osPathJoin (dir.getD []) (program_name ++ sl ".java")) ∧
    (optTruthy out = false → optTruthy dir = false →
      determine_output_file input_file program_name out dir =
        program_name ++ sl ".java") := by
  refine ⟨fun h => ?_, fun h1 h2 => ?_, fun h1 h2 => ?_⟩ <;>
    simp [determine_output_file, *]

/-- Witness for C9 at concrete inputs covering all three cases. -/
theorem C9_output_path_precedence_witness :
    determine_output_file (sl "in.pj") (sl "Prog") (some (sl "out.java")) (some (sl "d")) =
      sl "out.java" ∧
    determine_output_file (sl "in.pj") (sl "Prog") none (some (sl "d")) = sl "d/Prog.java" ∧
    determine_output_file (sl "in.pj") (sl "Prog") none none = sl "Prog.java" := by
  refine ⟨(C9_output_path_precedence (sl "in.pj") (sl "Prog") (some (sl "out.java")) (some (sl "d"))).1 (by decide),
    ?_, (C9_output_path_precedence (sl "in.pj") (sl "Prog") none none).2.2 (by decide) (by decide)⟩
  have h := (C9_output_path_precedence (sl "in.pj") (sl "Prog") none (some (sl "d"))).2.1
    (by decide) (by decide)
  rw [h]
  decide

/-- Claim C10: with two or more templates and an empty main body, the
generator falls through to the standalone-only strategy: the output is the
two import lines, a blank line, and a single `public class <program_name>`
holding only the standalone methods; the parsed templates do not appear in
the output at all (the result equals the one for the same program with no
templates). -/
theorem C10_templates_silently_dropped (pd : ParsedProgram)
    (h2 : 2 ≤ pd.templates.length) (hm : pd.main_method_body = []) :
    generate pd =
      joinSep (sl "\n") (generate_imports ++ [[]] ++ generate_standalone_methods_class pd) ∧
    generate pd = generate ⟨pd.program_name, [], [], pd.standalone_methods⟩ := by
  have hne : pd.templates.length ≠ 1 := by omega
  have hsm : should_merge_into_single_class pd = false := by
    simp only [should_merge_into_single_class]
    rw [if_neg hne]
  constructor
  · simp [generate, hsm, hm, hne]
  · simp [generate, hsm, hm, hne, should_merge_into_single_class,
      generate_standalone_methods_class]

/-- Witness for C10: two parsed templates, one standalone method, empty
main body. -/
theorem C10_templates_silently_dropped_witness :
    generate
      ⟨sl "Prog",
       [⟨sl "A", [], [], [], [], [], [], false, false, none, [], []⟩,
        ⟨sl "B", [], [], [], [], [], [], false, false, none, [], []⟩],
       [],
       [⟨sl "go", [], sl "void", .publicA, [sl "x();"], true, false⟩]⟩ =
    generate
      ⟨sl "Prog", [], [],
       [⟨sl "go", [], sl "void", .publicA, [sl "x();"], true, false⟩]⟩ :=
  (C10_templates_silently_dropped _ (by decide) (by decide)).2

/-- Counterexample for C4: for the container spelling `list`, an
initializer that is exactly the bare keyword written (`list`) is NOT
replaced by the synthesized default construction — it is kept verbatim
(only the canonical keyword `arraylist` triggers the default). -/
theorem C4_counterexample_list_keyword :
    process_collection_type (sl "list/int") (some (sl "list")) =
      (sl "ArrayList<Integer>", some (sl "list")) ∧
    some (sl "list") ≠ some (sl "new ArrayList<Integer>()") := by
  refine ⟨by decide, by decide⟩

/-- Claim C4 (amended): for every collection shorthand the element type is
mapped and boxed when primitive; the default construction
`new <MappedContainer><BoxedElement>()` (key type `String` for map
containers) is synthesized exactly when the initializer is missing, empty,
or equal to the CANONICAL container keyword of the family — `arraylist`
for `arraylist|list`, `hashmap` for `map|hashmap`, `hashset` for
`set|hashset` — never the bare spelling that was written; any other
initializer is kept unchanged. -/
theorem C4_default_value_canonical_keyword (elem : Str) (iv : Option Str) :
    process_collection_type (sl "arraylist/" ++ elem) iv =
      (sl "ArrayList<" ++ boxedElem elem ++ sl ">",
       if iv = none ∨ iv = some [] ∨ iv = some (sl "arraylist") then
         some (sl "new ArrayList<" ++ boxedElem elem ++ sl ">()")
       else iv) ∧
    process_collection_type (sl "list/" ++ elem) iv =
      (sl "ArrayList<" ++ boxedElem elem ++ sl ">",
       if iv = none ∨ iv = some [] ∨ iv = some (sl "arraylist") then
         some (sl "new ArrayList<" ++ boxedElem elem ++ sl ">()")
       else iv) ∧
    process_collection_type (sl "map/" ++ elem) iv =
      (sl "HashMap<String, " ++ boxedElem elem ++ sl ">",
       if iv = none ∨ iv = some [] ∨ iv = some (sl "hashmap") then
         some (sl "new HashMap<String, " ++ boxedElem elem ++ sl ">()")
       else iv) ∧
    process_collection_type (sl "hashmap/" ++ elem) iv =
      (sl "HashMap<String, " ++ boxedElem elem ++ sl ">",
       if iv = none ∨ iv = some [] ∨ iv = some (sl "hashmap") then
         some (sl "new HashMap<String, " ++ boxedElem elem ++ sl ">()")
       else iv) ∧
    process_collection_type (sl "set/" ++ elem) iv =
      (sl "HashSet<" ++ boxedElem elem ++ sl ">",
       if iv = none ∨ iv = some [] ∨ iv = some (sl "hashset") then
         some (sl "new HashSet<" ++ boxedElem elem ++ sl ">()")
       else iv) ∧
    process_collection_type (sl "hashset/" ++ elem) iv =
      (sl "HashSet<" ++ boxedElem elem ++ sl ">",
       if iv = none ∨ iv = some [] ∨ iv = some (sl "hashset") then
         some (sl "new HashSet<" ++ boxedElem elem ++ sl ">()")
       else iv) := by
  refine ⟨?_, ?_, ?_, ?_, ?_, ?_⟩
  case _ =>
    have hr : sl "arraylist/" ++ elem = sl "arraylist" ++ '/' :: elem := rfl
    have hcont : containsSub (sl "arraylist" ++ '/' :: elem) (sl "/") = true :=
      containsSub_append_right _ _ _ (by simp [containsSub, dropPfx])
    have hsplit : pySplitOnce (sl "arraylist" ++ '/' :: elem) (sl "/") =
        some (sl "arraylist", elem) := splitOnce_at_first _ _ _ (by decide)
    have hct : pyLower (pyStrip (sl "arraylist")) = sl "arraylist" := by decide
    rw [hr]
    simp only [process_collection_type, hcont, hsplit, Bool.not_true, hct, boxedElem]
    rcases iv with _ | v
    · simp [optTruthy]
    · by_cases h1 : v = []
      · subst h1; simp [optTruthy]
      · by_cases h2 : v = sl "arraylist"
        · subst h2; simp [optTruthy]
        · simp [optTruthy, h1, h2, List.isEmpty_iff]
  case _ =>
    have hr : sl "list/" ++ elem = sl "list" ++ '/' :: elem := rfl
    have hcont : containsSub (sl "list" ++ '/' :: elem) (sl "/") = true :=
      containsSub_append_right _ _ _ (by simp [containsSub, dropPfx])
    have hsplit : pySplitOnce (sl "list" ++ '/' :: elem) (sl "/") =
        some (sl "list", elem) := splitOnce_at_first _ _ _ (by decide)
    have hct : pyLower (pyStrip (sl "list")) = sl "list" := by decide
    rw [hr]
    simp only [process_collection_type, hcont, hsplit, Bool.not_true, hct, boxedElem]
    rcases iv with _ | v
    · simp [optTruthy, (by decide : sl "list" ≠ sl "arraylist")]
    · by_cases h1 : v = []
      · subst h1; simp [optTruthy, (by decide : sl "list" ≠ sl "arraylist")]
      · by_cases h2 : v = sl "arraylist"
        · subst h2; simp [optTruthy, (by decide : sl "list" ≠ sl "arraylist")]
        · simp [optTruthy, h1, h2, List.isEmpty_iff, (by decide : sl "list" ≠ sl "arraylist")]
  case _ =>
    have hr : sl "map/" ++ elem = sl "map" ++ '/' :: elem := rfl
    have hcont : containsSub (sl "map" ++ '/' :: elem) (sl "/") = true :=
      containsSub_append_right _ _ _ (by simp [containsSub, dropPfx])
    have hsplit : pySplitOnce (sl "map" ++ '/' :: elem) (sl "/") =
        some (sl "map", elem) := splitOnce_at_first _ _ _ (by decide)
    have hct : pyLower (pyStrip (sl "map")) = sl "map" := by decide
    rw [hr]
    simp only [process_collection_type, hcont, hsplit, Bool.not_true, hct, boxedElem]
    rcases iv with _ | v
    · simp [optTruthy, (by decide : sl "map" ≠ sl "arraylist"), (by decide : sl "map" ≠ sl "list"), (by decide : sl "map" ≠ sl "arraylist"), (by decide : sl "map" ≠ sl "list")]
    · by_cases h1 : v = []
      · subst h1; simp [optTruthy, (by decide : sl "map" ≠ sl "arraylist"), (by decide : sl "map" ≠ sl "list"), (by decide : sl "map" ≠ sl "arraylist"), (by decide : sl "map" ≠ sl "list")]
      · by_cases h2 : v = sl "hashmap"
        · subst h2; simp [optTruthy, (by decide : sl "map" ≠ sl "arraylist"), (by decide : sl "map" ≠ sl "list"), (by decide : sl "map" ≠ sl "arraylist"), (by decide : sl "map" ≠ sl "list")]
        · simp [optTruthy, h1, h2, List.isEmpty_iff, (by decide : sl "map" ≠ sl "arraylist"), (by decide : sl "map" ≠ sl "list")]
  case _ =>
    have hr : sl "hashmap/" ++ elem = sl "hashmap" ++ '/' :: elem := rfl
    have hcont : containsSub (sl "hashmap" ++ '/' :: elem) (sl "/") = true :=
      containsSub_append_right _ _ _ (by simp [containsSub, dropPfx])
    have hsplit : pySplitOnce (sl "hashmap" ++ '/' :: elem) (sl "/") =
        some (sl "hashmap", elem) := splitOnce_at_first _ _ _ (by decide)
    have hct : pyLower (pyStrip (sl "hashmap")) = sl "hashmap" := by decide
    rw [hr]
    simp only [process_collection_type, hcont, hsplit, Bool.not_true, hct, boxedElem]
    rcases iv with _ | v
    · simp [optTruthy, (by decide : sl "hashmap" ≠ sl "arraylist"), (by decide : sl "hashmap" ≠ sl "list"), (by decide : sl "hashmap" ≠ sl "arraylist"), (by decide : sl "hashmap" ≠ sl "list")]
    · by_cases h1 : v = []
      · subst h1; simp [optTruthy, (by decide : sl "hashmap" ≠ sl "arraylist"), (by decide : sl "hashmap" ≠ sl "list"), (by decide : sl "hashmap" ≠ sl "arraylist"), (by decide : sl "hashmap" ≠ sl "list")]
      · by_cases h2 : v = sl "hashmap"
        · subst h2; simp [optTruthy, (by decide : sl "hashmap" ≠ sl "arraylist"), (by decide : sl "hashmap" ≠ sl "list"), (by decide : sl "hashmap" ≠ sl "arraylist"), (by decide : sl "hashmap" ≠ sl "list")]
        · simp [optTruthy, h1, h2, List.isEmpty_iff, (by decide : sl "hashmap" ≠ sl "arraylist"), (by decide : sl "hashmap" ≠ sl "list")]
  case _ =>
    have hr : sl "set/" ++ elem = sl "set" ++ '/' :: elem := rfl
    have hcont : containsSub (sl "set" ++ '/' :: elem) (sl "/") = true :=
      containsSub_append_right _ _ _ (by simp [containsSub, dropPfx])
    have hsplit : pySplitOnce (sl "set" ++ '/' :: elem) (sl "/") =
        some (sl "set", elem) := splitOnce_at_first _ _ _ (by decide)
    have hct : pyLower (pyStrip (sl "set")) = sl "set" := by decide
    rw [hr]
    simp only [process_collection_type, hcont, hsplit, Bool.not_true, hct, boxedElem]
    rcases iv with _ | v
    · simp [optTruthy, (by decide : sl "set" ≠ sl "arraylist"), (by decide : sl "set" ≠ sl "list"), (by decide : sl "set" ≠ sl "map"), (by decide : sl "set" ≠ sl "hashmap"), (by decide : sl "set" ≠ sl "arraylist"), (by decide : sl "set" ≠ sl "list"), (by decide : sl "set" ≠ sl "map"), (by decide : sl "set" ≠ sl "hashmap")]
    · by_cases h1 : v = []
      · subst h1; simp [optTruthy, (by decide : sl "set" ≠ sl "arraylist"), (by decide : sl "set" ≠ sl "list"), (by decide : sl "set" ≠ sl "map"), (by decide : sl "set" ≠ sl "hashmap"), (by decide : sl "set" ≠ sl "arraylist"), (by decide : sl "set" ≠ sl "list"), (by decide : sl "set" ≠ sl "map"), (by decide : sl "set" ≠ sl "hashmap")]
      · by_cases h2 : v = sl "hashset"
        · subst h2; simp [optTruthy, (by decide : sl "set" ≠ sl "arraylist"), (by decide : sl "set" ≠ sl "list"), (by decide : sl "set" ≠ sl "map"), (by decide : sl "set" ≠ sl "hashmap"), (by decide : sl "set" ≠ sl "arraylist"), (by decide : sl "set" ≠ sl "list"), (by decide : sl "set" ≠ sl "map"), (by decide : sl "set" ≠ sl "hashmap")]
        · simp [optTruthy, h1, h2, List.isEmpty_iff, (by decide : sl "set" ≠ sl "arraylist"), (by decide : sl "set" ≠ sl "list"), (by decide : sl "set" ≠ sl "map"), (by decide : sl "set" ≠ sl "hashmap")]
  case _ =>
    have hr : sl "hashset/" ++ elem = sl "hashset" ++ '/' :: elem := rfl
    have hcont : containsSub (sl "hashset" ++ '/' :: elem) (sl "/") = true :=
      containsSub_append_right _ _ _ (by simp [containsSub, dropPfx])
    have hsplit : pySplitOnce (sl "hashset" ++ '/' :: elem) (sl "/") =
        some (sl "hashset", elem) := splitOnce_at_first _ _ _ (by decide)
    have hct : pyLower (pyStrip (sl "hashset")) = sl "hashset" := by decide
    rw [hr]
    simp only [process_collection_type, hcont, hsplit, Bool.not_true, hct, boxedElem]
    rcases iv with _ | v
    · simp [optTruthy, (by decide : sl "hashset" ≠ sl "arraylist"), (by decide : sl "hashset" ≠ sl "list"), (by decide : sl "hashset" ≠ sl "map"), (by decide : sl "hashset" ≠ sl "hashmap"), (by decide : sl "hashset" ≠ sl "arraylist"), (by decide : sl "hashset" ≠ sl "list"), (by decide : sl "hashset" ≠ sl "map"), (by decide : sl "hashset" ≠ sl "hashmap")]
    · by_cases h1 : v = []
      · subst h1; simp [optTruthy, (by decide : sl "hashset" ≠ sl "arraylist"), (by decide : sl "hashset" ≠ sl "list"), (by decide : sl "hashset" ≠ sl "map"), (by decide : sl "hashset" ≠ sl "hashmap"), (by decide : sl "hashset" ≠ sl "arraylist"), (by decide : sl "hashset" ≠ sl "list"), (by decide : sl "hashset" ≠ sl "map"), (by decide : sl "hashset" ≠ sl "hashmap")]
      · by_cases h2 : v = sl "hashset"
        · subst h2; simp [optTruthy, (by decide : sl "hashset" ≠ sl "arraylist"), (by decide : sl "hashset" ≠ sl "list"), (by decide : sl "hashset" ≠ sl "map"), (by decide : sl "hashset" ≠ sl "hashmap"), (by decide : sl "hashset" ≠ sl "arraylist"), (by decide : sl "hashset" ≠ sl "list"), (by decide : sl "hashset" ≠ sl "map"), (by decide : sl "hashset" ≠ sl "hashmap")]
        · simp [optTruthy, h1, h2, List.isEmpty_iff, (by decide : sl "hashset" ≠ sl "arraylist"), (by decide : sl "hashset" ≠ sl "list"), (by decide : sl "hashset" ≠ sl "map"), (by decide : sl "hashset" ≠ sl "hashmap")]

theorem splitOnceSub_eq_none (s : Str) (sep0 : Char) (sepRest : Str)
    (h : containsSub s (sep0 :: sepRest) = false) :
    splitOnceSub s (sep0 :: sepRest) = none := by
  induction s with
  | nil => simp [splitOnceSub]
  | cons a rest ih =>
      simp only [containsSub, Bool.or_eq_false_iff] at h
      obtain ⟨h1, h2⟩ := h
      simp only [splitOnceSub]
      cases hd : dropPfx (sep0 :: sepRest) (a :: rest) with
      | some q => rw [hd] at h1; simp at h1
      | none => rw [ih h2]

/-- Counterexample for C5: the missing-`as` failure is raised with the root
`PseudoJavaError` kind, not the `VariableError` specialization the claim
requires. -/
theorem C5_counterexample_error_kind :
    parse_variable [sl "someName"] 0 false =
      .error ⟨.pseudoJava,
        sl "Variable declaration \x27someName\x27 must use \x27name as type\x27 syntax. Example: \x27studentId as int\x27 or \x27name as string\x27"⟩ ∧
    ErrKind.pseudoJava ≠ ErrKind.variableErr := by
  refine ⟨by decide, by decide⟩

/-- Claim C5 (amended): for EVERY declaration line (non-blank, not a
comment) whose declaration part lacks ` as `, `parse_variable` always
fails with exactly the root-kind `PseudoJavaError` carrying the guidance
text `must use 'name as type' syntax`; no `Variable` is produced, and the
kind is not the `VariableError` specialization the original claim names. -/
theorem C5_missing_as_root_kind_error (lines : List Str) (start_idx : Nat)
    (is_static : Bool)
    (h1 : (pyStrip (lines.getD start_idx [])).isEmpty = false)
    (h2 : startsWithS (pyStrip (lines.getD start_idx [])) (sl "//") = false)
    (h3 : containsSub
      (declSplit (stripAccessChar (pyStrip (lines.getD start_idx []))).2).1
      (sl " as ") = false) :
    parse_variable lines start_idx is_static =
      .error ⟨.pseudoJava,
        sl "Variable declaration \x27" ++
        (stripAccessChar (pyStrip (lines.getD start_idx []))).2 ++
        sl "\x27 must use \x27name as type\x27 syntax. Example: \x27studentId as int\x27 or \x27name as string\x27"⟩ ∧
    (∀ v n, parse_variable lines start_idx is_static ≠ .ok (some v, n)) ∧
    ErrKind.pseudoJava ≠ ErrKind.variableErr ∧
    containsSub
      (sl "Variable declaration \x27" ++
        (stripAccessChar (pyStrip (lines.getD start_idx []))).2 ++
        sl "\x27 must use \x27name as type\x27 syntax. Example: \x27studentId as int\x27 or \x27name as string\x27")
      (sl "must use \x27name as type\x27 syntax") = true := by
  have hmain : parse_variable lines start_idx is_static =
      .error ⟨.pseudoJava,
        sl "Variable declaration \x27" ++
        (stripAccessChar (pyStrip (lines.getD start_idx []))).2 ++
        sl "\x27 must use \x27name as type\x27 syntax. Example: \x27studentId as int\x27 or \x27name as string\x27"⟩ := by
    simp only [parse_variable]
    rw [if_neg (by rw [h1, h2]; decide)]
    rw [if_pos (by rw [h3]; decide)]
  refine ⟨hmain, fun v n hc => ?_, fun hc => ErrKind.noConfusion hc, ?_⟩
  · rw [hmain] at hc
    cases hc
  · exact containsSub_append_right _ _ _ (by decide)

/-- Witness for C5 at the concrete bare-name declaration line `someName`. -/
theorem C5_missing_as_root_kind_error_witness :
    parse_variable [sl "someName"] 0 false =
      .error ⟨.pseudoJava,
        sl "Variable declaration \x27" ++
        (stripAccessChar (pyStrip ([sl "someName"].getD 0 []))).2 ++
        sl "\x27 must use \x27name as type\x27 syntax. Example: \x27studentId as int\x27 or \x27name as string\x27"⟩ ∧
    (∀ v n, parse_variable [sl "someName"] 0 false ≠ .ok (some v, n)) ∧
    ErrKind.pseudoJava ≠ ErrKind.variableErr ∧
    containsSub
      (sl "Variable declaration \x27" ++
        (stripAccessChar (pyStrip ([sl "someName"].getD 0 []))).2 ++
        sl "\x27 must use \x27name as type\x27 syntax. Example: \x27studentId as int\x27 or \x27name as string\x27")
      (sl "must use \x27name as type\x27 syntax") = true :=
  C5_missing_as_root_kind_error [sl "someName"] 0 false
    (by decide) (by decide) (by decide)

/-- Counterexample for C3: the generator uses Python `str.capitalize`,
which lower-cases the tail, so the variable `studentId` yields accessors
`getStudentid`/`setStudentid`, not the claimed `getStudentId`/`setStudentId`. -/
theorem C3_counterexample_capitalize :
    generate_getter_setter ⟨sl "studentId", sl "int", .privateA, none, false⟩ .publicA =
      [sl "    public int getStudentid() \x7b",
       sl "        return studentId;",
       sl "    \x7d",
       [],
       sl "    public void setStudentid(int studentId) \x7b",
       sl "        this.studentId = studentId;",
       sl "    \x7d"] ∧
    claimed_capitalize (sl "studentId") = sl "StudentId" ∧
    pyCapitalize (sl "studentId") ≠ claimed_capitalize (sl "studentId") := by
  refine ⟨by decide, by decide, by decide⟩

/-- Claim C3 (amended): for a getters/setters entry whose name matches a
declared variable, the generator emits a getter `get<Cap>` returning the
variable and a setter `set<Cap>` assigning `this.<name> = <name>`, where
`<Cap>` is Python `str.capitalize` of the name — first character
upper-cased and every other character LOWER-cased (so `studentId` yields
`getStudentid`/`setStudentid`). -/
theorem C3_getter_setter_uses_py_capitalize (t : Template) (n : Str)
    (a : Access) (v : Variable) (h : find_variable t n = some v) :
    v.name = n ∧
    generate_getter_setter v a =
      [(if !(accessStr a).isEmpty then
          sl "    " ++ accessStr a ++ sl " " ++ v.type_ ++ sl " " ++
            (sl "get" ++ pyCapitalize n) ++ sl "() \x7b"
        else sl "    " ++ v.type_ ++ sl " " ++ (sl "get" ++ pyCapitalize n) ++ sl "() \x7b"),
       sl "        return " ++ n ++ sl ";",
       sl "    \x7d",
       [],
       (if !(accessStr a).isEmpty then
          sl "    " ++ accessStr a ++ sl " void " ++ (sl "set" ++ pyCapitalize n) ++ sl "(" ++
            v.type_ ++ sl " " ++ n ++ sl ") \x7b"
        else
          sl "    void " ++ (sl "set" ++ pyCapitalize n) ++ sl "(" ++ v.type_ ++ sl " " ++
            n ++ sl ") \x7b"),
       sl "        this." ++ n ++ sl " = " ++ n ++ sl ";",
       sl "    \x7d"] := by
  have h1 : v.name = n := by
    have := List.find?_some h
    simpa using this
  refine ⟨h1, ?_⟩
  rw [← h1]
  rfl

/-- Witness for C3 at a concrete template declaring `studentId as int`. -/
theorem C3_getter_setter_uses_py_capitalize_witness :
    (Variable.mk (sl "studentId") (sl "int") .privateA none false).name = sl "studentId" ∧
    generate_getter_setter ⟨sl "studentId", sl "int", .privateA, none, false⟩ .publicA =
      [(if !(accessStr .publicA).isEmpty then
          sl "    " ++ accessStr .publicA ++ sl " " ++ sl "int" ++ sl " " ++
            (sl "get" ++ pyCapitalize (sl "studentId")) ++ sl "() \x7b"
        else sl "    " ++ sl "int" ++ sl " " ++ (sl "get" ++ pyCapitalize (sl "studentId")) ++ sl "() \x7b"),
       sl "        return " ++ sl "studentId" ++ sl ";",
       sl "    \x7d",
       [],
       (if !(accessStr .publicA).isEmpty then
          sl "    " ++ accessStr .publicA ++ sl " void " ++ (sl "set" ++ pyCapitalize (sl "studentId")) ++ sl "(" ++
            sl "int" ++ sl " " ++ sl "studentId" ++ sl ") \x7b"
        else
          sl "    void " ++ (sl "set" ++ pyCapitalize (sl "studentId")) ++ sl "(" ++ sl "int" ++ sl " " ++
            sl "studentId" ++ sl ") \x7b"),
       sl "        this." ++ sl "studentId" ++ sl " = " ++ sl "studentId" ++ sl ";",
       sl "    \x7d"] :=
  C3_getter_setter_uses_py_capitalize
    ⟨sl "T", [], [⟨sl "studentId", sl "int", .privateA, none, false⟩], [], [], [], [],
     false, false, none, [], []⟩
    (sl "studentId") .publicA ⟨sl "studentId", sl "int", .privateA, none, false⟩ (by decide)

/-- Counterexample for C7: a bare-name parameter in a standalone `method`
header raises a `PseudoJavaError` demanding an explicit type — parsing
does fail, and name-pattern inference is not applied. -/
theorem C7_counterexample_bare_param_raises :
    parse_standalone_method [sl "method foo(x)"] 0 =
      .error ⟨.pseudoJava,
        sl "Parameter \x27x\x27 requires explicit type. Use \x27type name\x27 syntax (e.g., \x27string x\x27)."⟩ := by
  decide

/-- Claim C7 (amended): without a `Template` context a bare-name parameter
always raises a `PseudoJavaError` requiring `type name` syntax; the
name-pattern inference (with `String` fallback) is applied only through
`_lookup_or_infer_parameter_type`, i.e. only when a `Template` with no
declared variables is in context. -/
theorem C7_bare_param_requires_type (p : Str) (t : Template)
    (h1 : pyStrip p = p) (h2 : p ≠ [])
    (h3 : containsSub p (sl ",") = false) (h4 : containsSub p (sl " ") = false) :
    parse_method_parameters p =
      .error ⟨.pseudoJava,
        sl "Parameter \x27" ++ p ++
        sl "\x27 requires explicit type. Use \x27type name\x27 syntax (e.g., \x27string " ++
        p ++ sl "\x27)."⟩ ∧
    (t.instance_vars = [] → t.template_vars = [] →
      lookup_or_infer_parameter_type p t = .ok (infer_type_from_name p)) := by
  constructor
  · have hsplit : pySplit p (sl ",") = [p] := by
      simp only [pySplit, show sl "," = [','] from rfl]
      cases hL : p.length with
      | zero => exact absurd (List.length_eq_zero.mp hL) h2
      | succ k =>
          simp only [pySplitNE, hL]
          rw [splitOnceSub_eq_none p ',' [] h3]
    simp only [parse_method_parameters, h1, hsplit]
    rw [if_neg (by simp [List.isEmpty_iff, h2])]
    simp only [mapExcept, oneParamExplicit, h1, h4, Bool.false_eq_true, if_false]
    rfl
  · intro g1 g2
    simp [lookup_or_infer_parameter_type, g1, g2, exactVarLookup, pluralLookup]

/-- Witness for C7 at the concrete parameter `x` and an empty template. -/
theorem C7_bare_param_requires_type_witness :
    parse_method_parameters (sl "x") =
      .error ⟨.pseudoJava,
        sl "Parameter \x27" ++ sl "x" ++
        sl "\x27 requires explicit type. Use \x27type name\x27 syntax (e.g., \x27string " ++
        sl "x" ++ sl "\x27)."⟩ ∧
    lookup_or_infer_parameter_type (sl "x")
      ⟨sl "U", [], [], [], [], [], [], false, false, none, [], []⟩ =
      .ok (infer_type_from_name (sl "x")) := by
  have h := C7_bare_param_requires_type (sl "x")
    ⟨sl "U", [], [], [], [], [], [], false, false, none, [], []⟩
    (by decide) (by decide) (by decide) (by decide)
  exact ⟨h.1, h.2 rfl rfl⟩


/- C2: symbolic evaluation of the monolithic object-creation regex rules. -/

theorem dropPfxCI_refl (p s : Str) : dropPfxCI false p (p ++ s) = some s := by
  induction p with
  | nil => rfl
  | cons a ps ih => simp [dropPfxCI, ih]

theorem reMatch_lit (p s : Str) (es : List RElem) :
    reMatch false (.lit p :: es) (p ++ s) = reMatch false es s := by
  simp [reMatch, dropPfxCI_refl]

theorem reMatch_lit_none (p s : Str) (es : List RElem)
    (h : dropPfxCI false p s = none) :
    reMatch false (.lit p :: es) s = none := by
  simp [reMatch, h]

theorem dropPfxCI_head_ne (p0 c : Char) (ps cs : Str) (h : p0 ≠ c) :
    dropPfxCI false (p0 :: ps) (c :: cs) = none := by
  simp [dropPfxCI, h]

theorem firstSome_none {α : Type} (l : List (Option α)) (h : ∀ x ∈ l, x = none) :
    firstSome l = none := by
  induction l with
  | nil => rfl
  | cons a rest ih =>
      have ha := h a (List.mem_cons_self a rest)
      subst ha
      exact ih (fun x hx => h x (List.mem_cons_of_mem _ hx))


/-- Definitional unfolding of the `\s+` element. -/
theorem reMatch_ws1_eq (ci : Bool) (es : List RElem) (s : Str) :
    reMatch ci (reWs1 :: es) s =
      firstSome (((((List.range ((s.takeWhile reIsSpace).length + 1)).filter
          (fun k => 1 ≤ k)).reverse)).map (fun k =>
        match reMatch ci es (s.drop k) with
        | some gs => some gs
        | none => none)) := rfl

/-- Definitional unfolding of the `(\w+)` element. -/
theorem reMatch_wordG_eq (ci : Bool) (es : List RElem) (s : Str) :
    reMatch ci (reWordG :: es) s =
      firstSome (((((List.range ((s.takeWhile reIsWord).length + 1)).filter
          (fun k => 1 ≤ k)).reverse)).map (fun k =>
        match reMatch ci es (s.drop k) with
        | some gs => some (s.take k :: gs)
        | none => none)) := rfl

/-- Definitional unfolding of the `(.*)` element. -/
theorem reMatch_starG_eq (ci : Bool) (es : List RElem) (s : Str) :
    reMatch ci (reStarG :: es) s =
      firstSome (((((List.range ((s.takeWhile reIsDot).length + 1)).filter
          (fun k => 0 ≤ k)).reverse)).map (fun k =>
        match reMatch ci es (s.drop k) with
        | some gs => some (s.take k :: gs)
        | none => none)) := rfl

theorem takeWhile_nil_of_head {f : Char → Bool} {c : Char} (s : Str)
    (h : f c = false) : (c :: s).takeWhile f = [] := by
  simp [List.takeWhile_cons, h]

theorem takeWhile_append_stop {f : Char → Bool} (a : Str) (c : Char) (b : Str)
    (ha : ∀ x ∈ a, f x = true) (hc : f c = false) :
    (a ++ c :: b).takeWhile f = a := by
  induction a with
  | nil => simp [List.takeWhile_cons, hc]
  | cons x xs ih =>
      have hx := ha x (List.mem_cons_self x xs)
      simp only [List.cons_append, List.takeWhile_cons, hx, if_true]
      rw [ih (fun y hy => ha y (List.mem_cons_of_mem _ hy))]

theorem takeWhile_all {f : Char → Bool} (s : Str) (h : ∀ x ∈ s, f x = true) :
    s.takeWhile f = s := by
  induction s with
  | nil => rfl
  | cons x xs ih =>
      have hx := h x (List.mem_cons_self x xs)
      simp only [List.takeWhile_cons, hx, if_true]
      rw [ih (fun y hy => h y (List.mem_cons_of_mem _ hy))]

/-- Greedy candidate list: the maximal munch comes first. -/
theorem greedy_cands (lo n : Nat) (h : lo ≤ n) :
    ((List.range (n + 1)).filter (fun k => decide (lo ≤ k))).reverse =
      n :: ((List.range n).filter (fun k => decide (lo ≤ k))).reverse := by
  rw [List.range_succ, List.filter_append]
  simp [h]

/-- `\s+` consuming exactly one space when the continuation string starts
with a non-space (or is empty). -/
theorem reMatch_ws1_single (ci : Bool) (es : List RElem) (x : Str)
    (hx : x.takeWhile reIsSpace = []) :
    reMatch ci (reWs1 :: es) (' ' :: x) = reMatch ci es x := by
  rw [reMatch_ws1_eq]
  have ht : (' ' :: x).takeWhile reIsSpace = [' '] := by
    simp [List.takeWhile_cons, reIsSpace, pyIsSpace, hx]
  rw [ht]
  simp only [List.length_cons, List.length_nil, Nat.zero_add]
  rw [greedy_cands 1 1 (by omega)]
  have : ((List.range 1).filter (fun k => decide (1 ≤ k))).reverse = [] := by decide
  rw [this]
  simp only [List.map_cons, List.map_nil, List.drop_one, List.tail_cons]
  cases hm : reMatch ci es x with
  | some gs => simp [firstSome, hm]
  | none => simp [firstSome, hm]

/-- `\s+` fails on a string that starts with a non-space. -/
theorem reMatch_ws1_none (ci : Bool) (es : List RElem) (s : Str)
    (hs : s.takeWhile reIsSpace = []) :
    reMatch ci (reWs1 :: es) s = none := by
  rw [reMatch_ws1_eq, hs]
  have : (((List.range (List.length ([] : Str) + 1)).filter (fun k => decide (1 ≤ k))).reverse) = [] := by
    decide
  rw [this]
  rfl


theorem word_not_space (d : Char) (h : reIsWord d = true) : reIsSpace d = false := by
  by_contra hns
  have hs : reIsSpace d = true := by
    cases hq : reIsSpace d with
    | false => exact absurd hq hns
    | true => rfl
  simp only [reIsSpace, pyIsSpace, Bool.or_eq_true, decide_eq_true_eq] at hs
  rcases hs with ((((h1 | h1) | h1) | h1) | h1) | h1 <;> subst h1 <;>
    exact absurd h (by decide)

/-- `(\w+)` followed by `\s+`: captures exactly the maximal word run. -/
theorem reMatch_wordG (ci : Bool) (es : List RElem) (name : Str) (c : Char) (rest : Str)
    (hne : name ≠ []) (hw : ∀ x ∈ name, reIsWord x = true) (hc : reIsWord c = false) :
    reMatch ci (reWordG :: reWs1 :: es) (name ++ c :: rest) =
      (reMatch ci (reWs1 :: es) (c :: rest)).map (fun gs => name :: gs) := by
  rw [reMatch_wordG_eq]
  rw [takeWhile_append_stop name c rest hw hc]
  have hlen : 1 ≤ name.length := by
    cases name with
    | nil => exact absurd rfl hne
    | cons _ _ => simp
  rw [greedy_cands 1 name.length hlen]
  simp only [List.map_cons]
  rw [List.drop_left, List.take_left]
  -- candidates below the maximum leave a word character at the head, so \s+ fails
  have hfail : ∀ k ∈ ((List.range name.length).filter (fun k => decide (1 ≤ k))).reverse,
      (match reMatch ci (reWs1 :: es) ((name ++ c :: rest).drop k) with
        | some gs => some ((name ++ c :: rest).take k :: gs)
        | none => none) = none := by
    intro k hk
    simp only [List.mem_reverse, List.mem_filter, List.mem_range] at hk
    obtain ⟨hklt, -⟩ := hk
    have hdrop : (name ++ c :: rest).drop k = name.drop k ++ c :: rest := by
      rw [List.drop_append_of_le_length (by omega)]
    have hhead : ∃ d ds, name.drop k = d :: ds := by
      have : k < name.length := hklt
      cases hd : name.drop k with
      | nil =>
          have := List.drop_eq_nil_iff_le.mp hd
          omega
      | cons d ds => exact ⟨d, ds, rfl⟩
    obtain ⟨d, ds, hd⟩ := hhead
    have hdw : reIsWord d = true := by
      apply hw
      have : d ∈ name.drop k := by rw [hd]; exact List.mem_cons_self d ds
      exact List.mem_of_mem_drop this
    have hdns : reIsSpace d = false := word_not_space d hdw
    rw [hdrop, hd]
    rw [reMatch_ws1_none ci es (d :: ds ++ c :: rest)
      (takeWhile_nil_of_head _ hdns)]
  cases hm : reMatch ci (reWs1 :: es) (c :: rest) with
  | some gs => simp [firstSome]
  | none =>
      rw [show Option.map (fun gs => name :: gs) (none : Option (List Str)) = none from rfl]
      apply firstSome_none
      intro x hx
      simp only [List.mem_cons, List.mem_map] at hx
      rcases hx with hx1 | ⟨k, hk, hkx⟩
      · simp [hx1]
      · rw [← hkx]
        exact hfail k hk
/-- `(.*)` captures the whole remaining non-newline string. -/
theorem reMatch_starG (ci : Bool) (s : Str) (h : ∀ x ∈ s, reIsDot x = true) :
    reMatch ci [reStarG] s = some [s] := by
  rw [show ([reStarG] : List RElem) = reStarG :: [] from rfl, reMatch_starG_eq]
  rw [takeWhile_all s h]
  rw [greedy_cands 0 s.length (by omega)]
  simp [firstSome, reMatch, List.take_length]

theorem reMatch_lit_as (x : Str) (es : List RElem) :
    reMatch false (.lit (sl "as") :: es) ('a' :: 's' :: x) = reMatch false es x :=
  reMatch_lit (sl "as") x es

theorem reMatch_lit_with (x : Str) (es : List RElem) :
    reMatch false (.lit (sl "with") :: es) ('w' :: 'i' :: 't' :: 'h' :: x) =
      reMatch false es x :=
  reMatch_lit (sl "with") x es

/-- The backbone common to both creation patterns: matching consumes the
verb, the variable name, `as`, the type name and `with`, and hands the
remaining string to the pattern's tail. -/
theorem creation_spine (verb name typ rest : Str) (tail : List RElem)
    (hn1 : name ≠ []) (hn2 : ∀ c ∈ name, reIsWord c = true)
    (ht1 : typ ≠ []) (ht2 : ∀ c ∈ typ, reIsWord c = true) :
    reMatch false
      (.lit verb :: reWs1 :: reWordG :: reWs1 :: .lit (sl "as") :: reWs1 ::
        reWordG :: reWs1 :: .lit (sl "with") :: tail)
      (verb ++ (' ' :: (name ++ (' ' :: 'a' :: 's' :: ' ' ::
        (typ ++ (' ' :: 'w' :: 'i' :: 't' :: 'h' :: rest)))))) =
      (reMatch false tail rest).map (fun gs => name :: typ :: gs) := by
  obtain ⟨n0, name', rfl⟩ :=
    (by cases name with
        | nil => exact absurd rfl hn1
        | cons a b => exact ⟨a, b, rfl⟩ :
      ∃ a b, name = a :: b)
  obtain ⟨t0, typ', rfl⟩ :=
    (by cases typ with
        | nil => exact absurd rfl ht1
        | cons a b => exact ⟨a, b, rfl⟩ :
      ∃ a b, typ = a :: b)
  rw [reMatch_lit]
  have hx1 : ((n0 :: name') ++ (' ' :: 'a' :: 's' :: ' ' ::
      ((t0 :: typ') ++ (' ' :: 'w' :: 'i' :: 't' :: 'h' :: rest)))).takeWhile reIsSpace = [] :=
    takeWhile_nil_of_head _ (word_not_space n0 (hn2 n0 (List.mem_cons_self _ _)))
  rw [reMatch_ws1_single false _ _ hx1]
  rw [reMatch_wordG false _ (n0 :: name') ' '
    ('a' :: 's' :: ' ' :: ((t0 :: typ') ++ (' ' :: 'w' :: 'i' :: 't' :: 'h' :: rest)))
    (by simp) hn2 (by decide)]
  rw [reMatch_ws1_single false _ _ (takeWhile_nil_of_head _ (by decide))]
  rw [reMatch_lit_as]
  have hx2 : ((t0 :: typ') ++ (' ' :: 'w' :: 'i' :: 't' :: 'h' :: rest)).takeWhile reIsSpace = [] :=
    takeWhile_nil_of_head _ (word_not_space t0 (ht2 t0 (List.mem_cons_self _ _)))
  rw [reMatch_ws1_single false _ _ hx2]
  rw [reMatch_wordG false _ (t0 :: typ') ' '
    ('w' :: 'i' :: 't' :: 'h' :: rest) (by simp) ht2 (by decide)]
  rw [reMatch_ws1_single false _ _ (takeWhile_nil_of_head _ (by decide))]
  rw [reMatch_lit_with]
  cases reMatch false tail rest <;> rfl

theorem argsPattern_some (verb name typ args : Str)
    (hn1 : name ≠ []) (hn2 : ∀ c ∈ name, reIsWord c = true)
    (ht1 : typ ≠ []) (ht2 : ∀ c ∈ typ, reIsWord c = true)
    (ha1 : args.takeWhile reIsSpace = []) (ha2 : ∀ c ∈ args, reIsDot c = true) :
    reMatch false
      (.lit verb :: reWs1 :: reWordG :: reWs1 :: .lit (sl "as") :: reWs1 ::
        reWordG :: reWs1 :: .lit (sl "with") :: reWs1 :: reStarG :: [])
      (verb ++ (' ' :: (name ++ (' ' :: 'a' :: 's' :: ' ' ::
        (typ ++ (' ' :: 'w' :: 'i' :: 't' :: 'h' :: ' ' :: args)))))) =
      some [name, typ, args] := by
  have h := creation_spine verb name typ (' ' :: args) (reWs1 :: reStarG :: [])
    hn1 hn2 ht1 ht2
  rw [h]
  rw [reMatch_ws1_single false _ args ha1]
  rw [show ([reStarG] : List RElem) = reStarG :: [] from rfl]  -- identity, for clarity
  rw [reMatch_starG false args ha2]
  rfl

theorem argsPattern_none_at_end (verb name typ : Str)
    (hn1 : name ≠ []) (hn2 : ∀ c ∈ name, reIsWord c = true)
    (ht1 : typ ≠ []) (ht2 : ∀ c ∈ typ, reIsWord c = true) :
    reMatch false
      (.lit verb :: reWs1 :: reWordG :: reWs1 :: .lit (sl "as") :: reWs1 ::
        reWordG :: reWs1 :: .lit (sl "with") :: reWs1 :: reStarG :: [])
      (verb ++ (' ' :: (name ++ (' ' :: 'a' :: 's' :: ' ' ::
        (typ ++ (' ' :: 'w' :: 'i' :: 't' :: 'h' :: [])))))) = none := by
  have h := creation_spine verb name typ [] (reWs1 :: reStarG :: []) hn1 hn2 ht1 ht2
  rw [h]
  rw [reMatch_ws1_none false _ [] rfl]
  rfl

theorem noargsPattern_some (verb name typ : Str)
    (hn1 : name ≠ []) (hn2 : ∀ c ∈ name, reIsWord c = true)
    (ht1 : typ ≠ []) (ht2 : ∀ c ∈ typ, reIsWord c = true) :
    reMatch false
      (.lit verb :: reWs1 :: reWordG :: reWs1 :: .lit (sl "as") :: reWs1 ::
        reWordG :: reWs1 :: .lit (sl "with") :: reWs0 :: .eol :: [])
      (verb ++ (' ' :: (name ++ (' ' :: 'a' :: 's' :: ' ' ::
        (typ ++ (' ' :: 'w' :: 'i' :: 't' :: 'h' :: [])))))) = some [name, typ] := by
  have h := creation_spine verb name typ [] (reWs0 :: .eol :: []) hn1 hn2 ht1 ht2
  rw [h]
  rfl

theorem creation_head_none (v s : Str) (p : List RElem)
    (hd : dropPfxCI false v s = none) :
    reMatch false (.lit v :: p) s = none := by
  simp [reMatch, hd]

theorem matchCreationArgs_eval (verb name typ args : Str)
    (hv : verb ∈ object_creation_verbs)
    (hn1 : name ≠ []) (hn2 : ∀ c ∈ name, reIsWord c = true)
    (ht1 : typ ≠ []) (ht2 : ∀ c ∈ typ, reIsWord c = true)
    (ha1 : args.takeWhile reIsSpace = []) (ha2 : ∀ c ∈ args, reIsDot c = true) :
    matchCreationArgs
      (verb ++ (' ' :: (name ++ (' ' :: 'a' :: 's' :: ' ' ::
        (typ ++ (' ' :: 'w' :: 'i' :: 't' :: 'h' :: ' ' :: args)))))) =
      some (typ ++ sl " " ++ name ++ sl " = new " ++ typ ++ sl "(" ++ args ++ sl ");") := by
  simp only [object_creation_verbs, List.mem_cons, List.not_mem_nil, or_false] at hv
  have key := argsPattern_some verb name typ args hn1 hn2 ht1 ht2 ha1 ha2
  rcases hv with rfl | rfl | rfl | rfl | rfl <;>
    (simp only [matchCreationArgs, object_creation_verbs, List.map_cons, List.map_nil,
      creationArgsPattern]
     repeat rw [creation_head_none _ _ _ rfl]
     rw [key]
     rfl)

theorem matchCreationNoArgs_eval (verb name typ : Str)
    (hv : verb ∈ object_creation_verbs)
    (hn1 : name ≠ []) (hn2 : ∀ c ∈ name, reIsWord c = true)
    (ht1 : typ ≠ []) (ht2 : ∀ c ∈ typ, reIsWord c = true) :
    matchCreationArgs
      (verb ++ (' ' :: (name ++ (' ' :: 'a' :: 's' :: ' ' ::
        (typ ++ (' ' :: 'w' :: 'i' :: 't' :: 'h' :: [])))))) = none ∧
    matchCreationNoArgs
      (verb ++ (' ' :: (name ++ (' ' :: 'a' :: 's' :: ' ' ::
        (typ ++ (' ' :: 'w' :: 'i' :: 't' :: 'h' :: [])))))) =
      some (typ ++ sl " " ++ name ++ sl " = new " ++ typ ++ sl "();") := by
  simp only [object_creation_verbs, List.mem_cons, List.not_mem_nil, or_false] at hv
  have key1 := argsPattern_none_at_end verb name typ hn1 hn2 ht1 ht2
  have key2 := noargsPattern_some verb name typ hn1 hn2 ht1 ht2
  rcases hv with rfl | rfl | rfl | rfl | rfl <;>
    refine ⟨?_, ?_⟩ <;>
    (simp only [matchCreationArgs, matchCreationNoArgs, object_creation_verbs,
      List.map_cons, List.map_nil, creationArgsPattern, creationNoArgsPattern]
     repeat rw [creation_head_none _ _ _ rfl]
     first
       | (rw [key1]
          repeat rw [creation_head_none _ _ _ rfl]
          rfl)
       | (rw [key2]
          rfl))

/-- Claim C2 (amended): in the monolithic parser the object-creation verb rules
hold exactly as claimed and come before every other per-line rule: for any
creation verb, word-shaped name and type, and dot-only nonempty argument text,
`v name as Type with args` maps to `Type name = new Type(args);` and
`v name as Type with` maps to `Type name = new Type();`. -/
theorem C2_creation_verbs_monolithic (verb name typ args : Str)
    (hv : verb ∈ object_creation_verbs)
    (hn1 : name ≠ []) (hn2 : ∀ c ∈ name, reIsWord c = true)
    (ht1 : typ ≠ []) (ht2 : ∀ c ∈ typ, reIsWord c = true)
    (ha1 : args.takeWhile reIsSpace = []) (ha2 : ∀ c ∈ args, reIsDot c = true)
    (hs1 : pyStrip (verb ++ sl " " ++ name ++ sl " as " ++ typ ++ sl " with " ++ args)
      = verb ++ sl " " ++ name ++ sl " as " ++ typ ++ sl " with " ++ args)
    (hs2 : pyStrip (verb ++ sl " " ++ name ++ sl " as " ++ typ ++ sl " with")
      = verb ++ sl " " ++ name ++ sl " as " ++ typ ++ sl " with") :
    mono_convert_statement_to_java
        (verb ++ sl " " ++ name ++ sl " as " ++ typ ++ sl " with " ++ args) =
      .ok (some (typ ++ sl " " ++ name ++ sl " = new " ++ typ ++ sl "(" ++ args ++ sl ");")) ∧
    mono_convert_statement_to_java
        (verb ++ sl " " ++ name ++ sl " as " ++ typ ++ sl " with") =
      .ok (some (typ ++ sl " " ++ name ++ sl " = new " ++ typ ++ sl "();")) := by
  have hstr1 : verb ++ sl " " ++ name ++ sl " as " ++ typ ++ sl " with " ++ args
      = verb ++ (' ' :: (name ++ (' ' :: 'a' :: 's' :: ' ' ::
        (typ ++ (' ' :: 'w' :: 'i' :: 't' :: 'h' :: ' ' :: args))))) := by
    simp only [List.append_assoc]; rfl
  have hstr2 : verb ++ sl " " ++ name ++ sl " as " ++ typ ++ sl " with"
      = verb ++ (' ' :: (name ++ (' ' :: 'a' :: 's' :: ' ' ::
        (typ ++ (' ' :: 'w' :: 'i' :: 't' :: 'h' :: ([] : Str)))))) := by
    simp only [List.append_assoc]; rfl
  have e1 := matchCreationArgs_eval verb name typ args hv hn1 hn2 ht1 ht2 ha1 ha2
  have e2 := matchCreationNoArgs_eval verb name typ hv hn1 hn2 ht1 ht2
  rw [hstr1] at hs1
  rw [hstr2] at hs2
  constructor
  · rw [hstr1]
    simp only [mono_convert_statement_to_java]
    rw [hs1, e1]
  · rw [hstr2]
    simp only [mono_convert_statement_to_java]
    rw [hs2, e2.1, e2.2]


/-- Counterexample for C2: the modular `StatementParser.convert_statement_to_java`
(also cited by the claim) has no object-creation rule at all -- the same creation
line is classified as a variable declaration and mangled into
`Student create alice = "Alice";`, not the claimed `new` expression. -/
theorem C2_counterexample_modular_no_creation_rule :
    convert_statement_to_java (sl "create alice as Student with \x22Alice\x22") =
      .ok (sl "Student create alice = \x22Alice\x22;") ∧
    (Except.ok (sl "Student create alice = \x22Alice\x22;") : Except PJError Str) ≠
      .ok (sl "Student alice = new Student(\x22Alice\x22);") :=
  ⟨by decide, by decide⟩

/-- Witness for C2 at the verb `create`, name `alice`, type `Student` and
argument text `"Alice"`. -/
theorem C2_creation_verbs_monolithic_witness :
    mono_convert_statement_to_java
        (sl "create" ++ sl " " ++ sl "alice" ++ sl " as " ++ sl "Student" ++
          sl " with " ++ sl "\x22Alice\x22") =
      .ok (some (sl "Student" ++ sl " " ++ sl "alice" ++ sl " = new " ++ sl "Student" ++
        sl "(" ++ sl "\x22Alice\x22" ++ sl ");")) ∧
    mono_convert_statement_to_java
        (sl "create" ++ sl " " ++ sl "alice" ++ sl " as " ++ sl "Student" ++ sl " with") =
      .ok (some (sl "Student" ++ sl " " ++ sl "alice" ++ sl " = new " ++ sl "Student" ++
        sl "();")) :=
  C2_creation_verbs_monolithic (sl "create") (sl "alice") (sl "Student")
    (sl "\x22Alice\x22") (by decide) (by decide) (by decide) (by decide) (by decide)
    (by decide) (by decide) (by decide) (by decide)

/- C6: the interpolated-print pipeline on the segment model. -/

theorem renderSegs_append (a b : List PSeg) :
    renderSegs (a ++ b) = renderSegs a ++ renderSegs b := by
  induction a with
  | nil => rfl
  | cons s r ih => cases s <;> simp [renderSegs, ih]

theorem dropPfx_refl (p s : Str) : dropPfx p (p ++ s) = some s := by
  induction p with
  | nil => rfl
  | cons a ps ih => simp [dropPfx, ih]

theorem dropPfx_head_ne (p0 c : Char) (ps cs : Str) (h : p0 ≠ c) :
    dropPfx (p0 :: ps) (c :: cs) = none := by
  simp [dropPfx, h]

theorem braceFree_cons (c : Char) (s : Str) :
    braceFree (c :: s) = ((c ≠ '\x7b' && c ≠ '\x7d') && braceFree s) := by
  simp [braceFree]

theorem braceFree_append (a b : Str) (ha : braceFree a = true) (hb : braceFree b = true) :
    braceFree (a ++ b) = true := by
  simp only [braceFree, List.all_append, Bool.and_eq_true]
  exact ⟨ha, hb⟩

theorem braceFree_chars (s : Str) (h : braceFree s = true) :
    ∀ c ∈ s, c ≠ '\x7b' ∧ c ≠ '\x7d' := by
  intro c hc
  simp only [braceFree, List.all_eq_true, Bool.and_eq_true, decide_eq_true_eq] at h
  exact h c hc

theorem mem_dropWhile (p : Char → Bool) (s : Str) : ∀ c ∈ s.dropWhile p, c ∈ s := by
  induction s with
  | nil => simp
  | cons a r ih =>
      intro c hc
      rw [List.dropWhile_cons] at hc
      by_cases hp : p a = true
      · rw [if_pos hp] at hc
        exact List.mem_cons_of_mem _ (ih c hc)
      · rw [if_neg hp] at hc
        exact hc

theorem mem_pyStrip (s : Str) : ∀ c ∈ pyStrip s, c ∈ s := by
  intro c hc
  simp only [pyStrip, List.mem_reverse] at hc
  have h1 := mem_dropWhile _ _ _ hc
  rw [List.mem_reverse] at h1
  exact mem_dropWhile _ _ _ h1

theorem mem_of_dropPfx {pat s t : Str} (h : dropPfx pat s = some t) :
    ∀ c ∈ t, c ∈ s := by
  induction pat generalizing s with
  | nil =>
      simp only [dropPfx, Option.some.injEq] at h
      subst h
      exact fun c hc => hc
  | cons p ps ih =>
      cases s with
      | nil => exact absurd h (by simp [dropPfx])
      | cons x xs =>
          simp only [dropPfx] at h
          split at h
          · exact fun c hc => List.mem_cons_of_mem _ (ih h c hc)
          · cases h

theorem mem_splitOnceSub {s sep a b : Str} (h : splitOnceSub s sep = some (a, b)) :
    (∀ c ∈ a, c ∈ s) ∧ (∀ c ∈ b, c ∈ s) := by
  induction s generalizing a b with
  | nil => exact absurd h (by simp [splitOnceSub])
  | cons c0 rest ih =>
      simp only [splitOnceSub] at h
      cases hd : dropPfx sep (c0 :: rest) with
      | some after =>
          rw [hd] at h
          cases h
          exact ⟨fun c hc => absurd hc (List.not_mem_nil c),
                 fun c hc => mem_of_dropPfx hd c hc⟩
      | none =>
          rw [hd] at h
          cases hs : splitOnceSub rest sep with
          | some pp =>
              obtain ⟨p1, p2⟩ := pp
              rw [hs] at h
              cases h
              refine ⟨fun c hc => ?_, fun c hc => List.mem_cons_of_mem _ ((ih hs).2 c hc)⟩
              rcases List.mem_cons.mp hc with rfl | hc2
              · exact List.mem_cons_self _ _
              · exact List.mem_cons_of_mem _ ((ih hs).1 c hc2)
          | none => rw [hs] at h; cases h

theorem splitOnceSub_some_of_contains (s sep : Str) (hsep : sep ≠ [])
    (h : containsSub s sep = true) : ∃ a b, splitOnceSub s sep = some (a, b) := by
  induction s with
  | nil =>
      simp only [containsSub, List.isEmpty_iff] at h
      exact absurd h hsep
  | cons c rest ih =>
      simp only [containsSub, Bool.or_eq_true] at h
      simp only [splitOnceSub]
      cases hd : dropPfx sep (c :: rest) with
      | some after => exact ⟨[], after, rfl⟩
      | none =>
          rcases h with h | h
          · rw [hd] at h; cases h
          · obtain ⟨a, b, hab⟩ := ih h
            rw [hab]
            exact ⟨c :: a, b, rfl⟩

theorem mem_pySplitNE (sep : Str) (fuel : Nat) :
    ∀ (s : Str), ∀ x ∈ pySplitNE fuel s sep, ∀ c ∈ x, c ∈ s := by
  induction fuel with
  | zero =>
      intro s x hx c hc
      simp only [pySplitNE, List.mem_singleton] at hx
      subst hx
      exact hc
  | succ f ih =>
      intro s x hx c hc
      simp only [pySplitNE] at hx
      cases hsp : splitOnceSub s sep with
      | some pp =>
          obtain ⟨pre, post⟩ := pp
          rw [hsp] at hx
          rcases List.mem_cons.mp hx with rfl | hx2
          · exact (mem_splitOnceSub hsp).1 c hc
          · exact (mem_splitOnceSub hsp).2 c (ih post x hx2 c hc)
      | none =>
          rw [hsp] at hx
          simp only [List.mem_singleton] at hx
          subst hx
          exact hc

theorem mem_getD {l : List Str} {i : Nat} {c : Char} (hc : c ∈ l.getD i []) :
    ∃ x ∈ l, c ∈ x := by
  by_cases h : i < l.length
  · rw [List.getD_eq_getElem l [] h] at hc
    exact ⟨l[i], List.getElem_mem h, hc⟩
  · rw [List.getD_eq_default l [] (by omega)] at hc
    cases hc

theorem braceFree_dropLast (s : Str) (h : braceFree s = true) :
    braceFree s.dropLast = true := by
  simp only [braceFree, List.all_eq_true] at h ⊢
  exact fun c hc => h c (List.dropLast_subset s hc)

theorem braceFree_of_subset (s t : Str) (hsub : ∀ c ∈ s, c ∈ t)
    (h : braceFree t = true) : braceFree s = true := by
  simp only [braceFree, List.all_eq_true] at h ⊢
  exact fun c hc => h c (hsub c hc)

theorem braceFree_specOf (p : Str) (h : braceFree p = true) :
    braceFree (specOf p) = true := by
  simp only [specOf]
  by_cases hc : containsSub p (sl ":") = true
  · rw [if_pos hc]
    cases hsp : pySplitOnce p (sl ":") with
    | none => decide
    | some ab =>
        obtain ⟨vn, fs⟩ := ab
        dsimp only
        by_cases hf : endsWithS (pyStrip fs) (sl "f") = true
        · rw [if_pos hf]
          by_cases hdot : containsSub (pyStrip fs) (sl ".") = true
          · rw [if_pos hdot]
            have hfs : braceFree fs = true :=
              braceFree_of_subset _ _ (mem_splitOnceSub hsp).2 h
            have hstrip : braceFree (pyStrip fs) = true :=
              braceFree_of_subset _ _ (mem_pyStrip fs) hfs
            have hprec :
                braceFree (((pySplit (pyStrip fs) (sl ".")).getD 1 []).dropLast) = true := by
              apply braceFree_dropLast
              apply braceFree_of_subset _ _ _ hstrip
              intro c hcm
              obtain ⟨x, hx, hcx⟩ := mem_getD hcm
              rw [show pySplit (pyStrip fs) (sl ".") =
                pySplitNE (pyStrip fs).length (pyStrip fs) (sl ".") from rfl] at hx
              exact mem_pySplitNE (sl ".") (pyStrip fs).length (pyStrip fs) x hx c hcx
            refine braceFree_append _ _ (braceFree_append _ _ (by decide) hprec) (by decide)
          · rw [if_neg hdot]; decide
        · rw [if_neg hf]
          by_cases hd2 : pyStrip fs = sl "d"
          · rw [if_pos hd2]; decide
          · rw [if_neg hd2]; decide
  · rw [if_neg hc]; decide

theorem interpStep_eq (fs : Str) (args : List Str) (p : Str) :
    interpStep (fs, args) p =
      (replaceAll fs (sl "\x7b" ++ p ++ sl "\x7d") (specOf p), args ++ [argOf p]) := by
  simp only [interpStep, specOf, argOf]
  by_cases hc : containsSub p (sl ":") = true
  · rw [if_pos hc, if_pos hc, if_pos hc]
    cases hsp : pySplitOnce p (sl ":") with
    | none =>
        exfalso
        obtain ⟨a, b, hab⟩ := splitOnceSub_some_of_contains p (sl ":") (by decide) hc
        rw [show pySplitOnce p (sl ":") = splitOnceSub p (sl ":") from rfl] at hsp
        rw [hsp] at hab
        cases hab
    | some ab => rfl
  · rw [if_neg hc, if_neg hc, if_neg hc]
    by_cases hcol : is_collection_operation p = true
    · rw [if_pos hcol, if_pos hcol]
    · rw [if_neg hcol, if_neg hcol]
      by_cases hop : [sl "+", sl "-", sl "*", sl "/", sl ".", sl "("].any
          (fun op => containsSub p op) = true
      · rw [if_pos hop, if_pos hop]
      · rw [if_neg hop, if_neg hop]

theorem dropPfx_closed_ne (p : Str) :
    ∀ (q w : Str), p ≠ q → braceFree p = true → braceFree q = true →
    dropPfx (p ++ ['\x7d']) (q ++ '\x7d' :: w) = none := by
  induction p with
  | nil =>
      intro q w hne _ hq
      cases q with
      | nil => exact absurd rfl hne
      | cons b q' =>
          have hb := (braceFree_chars _ hq b (List.mem_cons_self _ _)).2
          show dropPfx ['\x7d'] (b :: (q' ++ '\x7d' :: w)) = none
          exact dropPfx_head_ne _ _ _ _ (fun hh => hb hh.symm)
  | cons a p' ih =>
      intro q w hne hp hq
      have ha := braceFree_chars _ hp a (List.mem_cons_self _ _)
      have hp' : braceFree p' = true := by
        rw [braceFree_cons, Bool.and_eq_true] at hp
        exact hp.2
      cases q with
      | nil =>
          show dropPfx (a :: (p' ++ ['\x7d'])) ('\x7d' :: w) = none
          exact dropPfx_head_ne _ _ _ _ ha.2
      | cons b q' =>
          have hq' : braceFree q' = true := by
            rw [braceFree_cons, Bool.and_eq_true] at hq
            exact hq.2
          show dropPfx (a :: (p' ++ ['\x7d'])) (b :: (q' ++ '\x7d' :: w)) = none
          by_cases hab : a = b
          · subst hab
            simp only [dropPfx, if_pos rfl]
            exact ih q' w (fun hh => hne (by rw [hh])) hp' hq'
          · exact dropPfx_head_ne _ _ _ _ hab

theorem raGo_skip (q r : Str) :
    ∀ (d t : Str) (fuel : Nat), (∀ c ∈ d, c ≠ '\x7b') →
    raGo (d.length + fuel) ('\x7b' :: q) r (d ++ t) =
      d ++ raGo fuel ('\x7b' :: q) r t := by
  intro d
  induction d with
  | nil => intro t fuel _; simp
  | cons a d' ih =>
      intro t fuel hd
      have ha : a ≠ '\x7b' := hd a (List.mem_cons_self _ _)
      rw [show (a :: d').length + fuel = d'.length + fuel + 1 from by
        simp [List.length_cons]; omega]
      show raGo (d'.length + fuel + 1) ('\x7b' :: q) r (a :: (d' ++ t)) = _
      rw [show raGo (d'.length + fuel + 1) ('\x7b' :: q) r (a :: (d' ++ t)) =
        (match dropPfx ('\x7b' :: q) (a :: (d' ++ t)) with
         | some rest => r ++ raGo (d'.length + fuel) ('\x7b' :: q) r rest
         | none => a :: raGo (d'.length + fuel) ('\x7b' :: q) r (d' ++ t)) from rfl]
      rw [dropPfx_head_ne _ _ _ _ (fun hh => ha hh.symm)]
      rw [ih t fuel (fun c hc => hd c (List.mem_cons_of_mem _ hc))]
      rfl

theorem raGo_hit (p r t : Str) (fuel : Nat) :
    raGo (fuel + 1) ('\x7b' :: (p ++ ['\x7d'])) r ('\x7b' :: (p ++ '\x7d' :: t)) =
      r ++ raGo fuel ('\x7b' :: (p ++ ['\x7d'])) r t := by
  have key : dropPfx ('\x7b' :: (p ++ ['\x7d'])) ('\x7b' :: (p ++ '\x7d' :: t)) = some t := by
    have hsplit : ('\x7b' :: (p ++ ['\x7d'])) ++ t = '\x7b' :: (p ++ '\x7d' :: t) := by
      simp
    rw [← hsplit, dropPfx_refl]
  rw [show raGo (fuel + 1) ('\x7b' :: (p ++ ['\x7d'])) r ('\x7b' :: (p ++ '\x7d' :: t)) =
    (match dropPfx ('\x7b' :: (p ++ ['\x7d'])) ('\x7b' :: (p ++ '\x7d' :: t)) with
     | some rest => r ++ raGo fuel ('\x7b' :: (p ++ ['\x7d'])) r rest
     | none => '\x7b' :: raGo fuel ('\x7b' :: (p ++ ['\x7d'])) r (p ++ '\x7d' :: t)) from rfl]
  rw [key]

theorem raGo_noop_segs (p r : Str) (hp : braceFree p = true) :
    ∀ (M : List PSeg) (t : Str) (fuel : Nat), goodSegs M = true → p ∉ phsOf M →
    raGo ((renderSegs M).length + fuel) ('\x7b' :: (p ++ ['\x7d'])) r (renderSegs M ++ t) =
      renderSegs M ++ raGo fuel ('\x7b' :: (p ++ ['\x7d'])) r t := by
  intro M
  induction M with
  | nil => intro t fuel _ _; simp [renderSegs]
  | cons seg M' ih =>
      intro t fuel hg hnp
      cases seg with
      | litS s =>
          simp only [goodSegs, Bool.and_eq_true] at hg
          simp only [phsOf] at hnp
          rw [show renderSegs (.litS s :: M') = s ++ renderSegs M' from rfl]
          rw [List.append_assoc, List.length_append]
          rw [show s.length + (renderSegs M').length + fuel =
            s.length + ((renderSegs M').length + fuel) from by omega]
          rw [raGo_skip _ r s _ _ (fun c hc => (braceFree_chars _ hg.1 c hc).1)]
          rw [ih t fuel hg.2 hnp, List.append_assoc]
      | phS q =>
          simp only [goodSegs, Bool.and_eq_true] at hg
          simp only [phsOf, List.mem_cons, not_or] at hnp
          rw [show renderSegs (.phS q :: M') = '\x7b' :: (q ++ '\x7d' :: renderSegs M')
            from rfl]
          rw [show ('\x7b' :: (q ++ '\x7d' :: renderSegs M')).length + fuel =
            ((q.length + 1) + ((renderSegs M').length + fuel)) + 1 from by
              simp [List.length_cons, List.length_append]; omega]
          rw [show ('\x7b' :: (q ++ '\x7d' :: renderSegs M')) ++ t =
            '\x7b' :: (q ++ '\x7d' :: (renderSegs M' ++ t)) from by simp]
          rw [show raGo ((q.length + 1) + ((renderSegs M').length + fuel) + 1)
              ('\x7b' :: (p ++ ['\x7d'])) r ('\x7b' :: (q ++ '\x7d' :: (renderSegs M' ++ t))) =
            (match dropPfx ('\x7b' :: (p ++ ['\x7d']))
                ('\x7b' :: (q ++ '\x7d' :: (renderSegs M' ++ t))) with
             | some rest => r ++ raGo ((q.length + 1) + ((renderSegs M').length + fuel))
                 ('\x7b' :: (p ++ ['\x7d'])) r rest
             | none => '\x7b' :: raGo ((q.length + 1) + ((renderSegs M').length + fuel))
                 ('\x7b' :: (p ++ ['\x7d'])) r (q ++ '\x7d' :: (renderSegs M' ++ t)))
            from rfl]
          have hmain : dropPfx ('\x7b' :: (p ++ ['\x7d']))
              ('\x7b' :: (q ++ '\x7d' :: (renderSegs M' ++ t))) = none := by
            rw [show dropPfx ('\x7b' :: (p ++ ['\x7d']))
                ('\x7b' :: (q ++ '\x7d' :: (renderSegs M' ++ t))) =
              dropPfx (p ++ ['\x7d']) (q ++ '\x7d' :: (renderSegs M' ++ t)) from by
                simp [dropPfx]]
            exact dropPfx_closed_ne p q _ (fun hh => hnp.1 (hh ▸ rfl)) hp hg.1.1
          rw [hmain]
          rw [show q ++ '\x7d' :: (renderSegs M' ++ t) =
            (q ++ ['\x7d']) ++ (renderSegs M' ++ t) from by simp]
          rw [show q.length + 1 = (q ++ ['\x7d']).length from by simp]
          rw [raGo_skip _ r (q ++ ['\x7d']) _ _ ?hside]
          case hside =>
            intro c hc
            rcases List.mem_append.mp hc with hc1 | hc2
            · exact (braceFree_chars _ hg.1.1 c hc1).1
            · simp only [List.mem_singleton] at hc2
              subst hc2
              decide
          rw [ih t fuel hg.2 hnp.2]
          simp

theorem raGo_nil (pat r : Str) (fuel : Nat) : raGo fuel pat r [] = [] := by
  cases fuel <;> rfl

theorem raGo_noop_segs_nil (p r : Str) (hp : braceFree p = true) (M : List PSeg)
    (fuel : Nat) (hg : goodSegs M = true) (hnp : p ∉ phsOf M) :
    raGo ((renderSegs M).length + fuel) ('\x7b' :: (p ++ ['\x7d'])) r (renderSegs M) =
      renderSegs M := by
  have h := raGo_noop_segs p r hp M [] fuel hg hnp
  simpa [raGo_nil] using h

theorem replaceAll_render (d p r : Str) (M' : List PSeg)
    (hd : braceFree d = true) (hp : braceFree p = true)
    (hg : goodSegs M' = true) (hnp : p ∉ phsOf M') :
    replaceAll (d ++ ('\x7b' :: (p ++ '\x7d' :: renderSegs M')))
        (sl "\x7b" ++ p ++ sl "\x7d") r =
      d ++ (r ++ renderSegs M') := by
  rw [show (sl "\x7b" ++ p ++ sl "\x7d") = '\x7b' :: (p ++ ['\x7d']) from by simp [sl]]
  rw [show replaceAll (d ++ ('\x7b' :: (p ++ '\x7d' :: renderSegs M')))
      ('\x7b' :: (p ++ ['\x7d'])) r =
    raGo (d ++ ('\x7b' :: (p ++ '\x7d' :: renderSegs M'))).length
      ('\x7b' :: (p ++ ['\x7d'])) r (d ++ ('\x7b' :: (p ++ '\x7d' :: renderSegs M')))
    from rfl]
  rw [show (d ++ ('\x7b' :: (p ++ '\x7d' :: renderSegs M'))).length =
    d.length + (((renderSegs M').length + (p.length + 1)) + 1) from by
      simp [List.length_append, List.length_cons]; omega]
  rw [raGo_skip _ r d _ _ (fun c hc => (braceFree_chars _ hd c hc).1)]
  rw [raGo_hit]
  rw [raGo_noop_segs_nil p r hp M' (p.length + 1) hg hnp]

theorem foldl_interp (M : List PSeg) :
    ∀ (d : Str) (args : List Str), goodSegs M = true → (phsOf M).Nodup →
    braceFree d = true →
    (phsOf M).foldl interpStep (d ++ renderSegs M, args) =
      (d ++ renderSegs (M.map segSpec), args ++ (phsOf M).map argOf) := by
  induction M with
  | nil => intro d args _ _ _; simp [phsOf, renderSegs]
  | cons seg M' ih =>
      intro d args hg hnd hd
      cases seg with
      | litS s =>
          simp only [goodSegs, Bool.and_eq_true] at hg
          simp only [phsOf] at hnd ⊢
          rw [show renderSegs (.litS s :: M') = s ++ renderSegs M' from rfl]
          rw [show (PSeg.litS s :: M').map segSpec = .litS s :: M'.map segSpec from rfl]
          rw [show renderSegs (.litS s :: M'.map segSpec) = s ++ renderSegs (M'.map segSpec)
            from rfl]
          rw [← List.append_assoc d s, ← List.append_assoc d s]
          exact ih (d ++ s) args hg.2 hnd (braceFree_append _ _ hd hg.1)
      | phS p =>
          simp only [goodSegs, Bool.and_eq_true] at hg
          simp only [phsOf] at hnd ⊢
          have hnd' := List.nodup_cons.mp hnd
          rw [show renderSegs (.phS p :: M') = '\x7b' :: (p ++ '\x7d' :: renderSegs M')
            from rfl]
          rw [List.foldl_cons, interpStep_eq]
          rw [show d ++ ('\x7b' :: (p ++ '\x7d' :: renderSegs M')) =
            d ++ ('\x7b' :: (p ++ '\x7d' :: renderSegs M')) from rfl]
          rw [replaceAll_render d p (specOf p) M' hd hg.1.1 hg.2 hnd'.1]
          rw [← List.append_assoc d (specOf p)]
          rw [ih (d ++ specOf p) (args ++ [argOf p]) hg.2 hnd'.2
            (braceFree_append _ _ hd (braceFree_specOf p hg.1.1))]
          rw [show (PSeg.phS p :: M').map segSpec = .litS (specOf p) :: M'.map segSpec
            from rfl]
          rw [show renderSegs (.litS (specOf p) :: M'.map segSpec) =
            specOf p ++ renderSegs (M'.map segSpec) from rfl]
          simp [List.append_assoc]

theorem findBraceSegsF_cons (f : Nat) (c : Char) (s : Str) :
    findBraceSegsF (f + 1) (c :: s) =
      (if c = '\x7b' then
        (if (s.takeWhile (fun x => x ≠ '\x7d')).isEmpty ||
            (s.drop (s.takeWhile (fun x => x ≠ '\x7d')).length).isEmpty then
          findBraceSegsF f s
        else (s.takeWhile (fun x => x ≠ '\x7d')) ::
          findBraceSegsF f ((s.drop (s.takeWhile (fun x => x ≠ '\x7d')).length).drop 1))
      else findBraceSegsF f s) := rfl

theorem findBraceSegsF_skip (s : Str) :
    ∀ (t : Str) (fuel : Nat), (∀ c ∈ s, c ≠ '\x7b') →
    findBraceSegsF (s.length + fuel) (s ++ t) = findBraceSegsF fuel t := by
  induction s with
  | nil => intro t fuel _; simp
  | cons a s' ih =>
      intro t fuel hs
      rw [show (a :: s').length + fuel = s'.length + fuel + 1 from by
        simp [List.length_cons]; omega]
      show findBraceSegsF (s'.length + fuel + 1) (a :: (s' ++ t)) = _
      rw [findBraceSegsF_cons, if_neg (hs a (List.mem_cons_self _ _))]
      exact ih t fuel (fun c hc => hs c (List.mem_cons_of_mem _ hc))

theorem findBraceSegsF_hit (p t : Str) (fuel : Nat) (hp1 : p ≠ [])
    (hp : ∀ c ∈ p, c ≠ '\x7d') :
    findBraceSegsF (fuel + 1) ('\x7b' :: (p ++ '\x7d' :: t)) =
      p :: findBraceSegsF fuel t := by
  rw [findBraceSegsF_cons, if_pos rfl]
  have htake : (p ++ '\x7d' :: t).takeWhile (fun x => decide (x ≠ '\x7d')) = p :=
    takeWhile_append_stop p '\x7d' t (fun c hc => by simp [hp c hc]) (by simp)
  rw [show ((p ++ '\x7d' :: t).takeWhile fun x => x ≠ '\x7d') = p from htake]
  rw [List.drop_left]
  rw [if_neg (by simp [List.isEmpty_iff, hp1])]
  simp

theorem findBraceSegs_render (L : List PSeg) (hg : goodSegs L = true) :
    findBraceSegs (renderSegs L) = phsOf L := by
  suffices h : ∀ fuel, (renderSegs L).length ≤ fuel →
      findBraceSegsF fuel (renderSegs L) = phsOf L by
    exact h _ le_rfl
  induction L with
  | nil => intro fuel _; cases fuel <;> rfl
  | cons seg L' ih =>
      intro fuel hfuel
      cases seg with
      | litS s =>
          simp only [goodSegs, Bool.and_eq_true] at hg
          rw [show renderSegs (.litS s :: L') = s ++ renderSegs L' from rfl] at hfuel ⊢
          rw [show phsOf (.litS s :: L') = phsOf L' from rfl]
          rw [List.length_append] at hfuel
          rw [show fuel = s.length + (fuel - s.length) from by omega]
          rw [findBraceSegsF_skip s _ _ (fun c hc => (braceFree_chars _ hg.1 c hc).1)]
          exact ih hg.2 _ (by omega)
      | phS p =>
          simp only [goodSegs, Bool.and_eq_true] at hg
          rw [show renderSegs (.phS p :: L') = '\x7b' :: (p ++ '\x7d' :: renderSegs L')
            from rfl] at hfuel ⊢
          rw [show phsOf (.phS p :: L') = p :: phsOf L' from rfl]
          rw [List.length_cons, List.length_append, List.length_cons] at hfuel
          rw [show fuel = (fuel - 1) + 1 from by omega]
          rw [findBraceSegsF_hit p _ _ (by simpa [List.isEmpty_iff] using hg.1.2)
            (fun c hc => (braceFree_chars _ hg.1.1 c hc).2)]
          rw [ih hg.2 _ (by omega)]

theorem map_segSpec_of_no_ph (L : List PSeg) (h : phsOf L = []) :
    L.map segSpec = L := by
  induction L with
  | nil => rfl
  | cons seg r ih =>
      cases seg with
      | litS s =>
          rw [show phsOf (.litS s :: r) = phsOf r from rfl] at h
          simp [segSpec, ih h]
      | phS p =>
          rw [show phsOf (.phS p :: r) = p :: phsOf r from rfl] at h
          cases h

/-- Claim C6: for every well-formed interpolated print line (an interleaving of
brace-free literal runs and distinct non-empty brace-free `{...}` placeholders),
each placeholder is replaced by its format specifier (`%.<precision>f` /
`%f` / `%d` / `%s` as claimed) and contributes its argument (the expression
before `:`, a parenthesized collection-operation call, a parenthesized
operator expression, or the bare variable) in placeholder order, giving
`System.out.println(String.format("<format>", args...))` -- or a plain
quoted println when there are no placeholders. -/
theorem C6_interpolated_print (L : List PSeg)
    (hg : goodSegs L = true) (hnd : (phsOf L).Nodup) :
    convert_interpolated_print (renderSegs L) =
      if (phsOf L).isEmpty then
        sl "System.out.println(\x22" ++ escapeQ (renderSegs L) ++ sl "\x22);"
      else
        sl "System.out.println(String.format(\x22" ++
          escapeQ (renderSegs (L.map segSpec)) ++ sl "\x22, " ++
          joinSep (sl ", ") ((phsOf L).map argOf) ++ sl "));" := by
  have hfold := foldl_interp L [] [] hg hnd (by decide)
  simp only [List.nil_append] at hfold
  simp only [convert_interpolated_print, findBraceSegs_render L hg, hfold]
  rw [show replaceAll (renderSegs (L.map segSpec)) (sl "\x22") (sl "\x5c\x22") =
    escapeQ (renderSegs (L.map segSpec)) from rfl]
  cases hph : phsOf L with
  | nil =>
      rw [map_segSpec_of_no_ph L hph]
      simp
  | cons a l =>
      simp

/-- Witness for C6 at the concrete line `Total {count} cost {price:.2f}`. -/
theorem C6_interpolated_print_witness :
    convert_interpolated_print (sl "Total \x7bcount\x7d cost \x7bprice:.2f\x7d") =
      sl "System.out.println(String.format(\x22Total %s cost %.2f\x22, count, price));" := by
  have h := C6_interpolated_print
    [.litS (sl "Total "), .phS (sl "count"), .litS (sl " cost "), .phS (sl "price:.2f")]
    (by decide) (by decide)
  exact h
